import Mathlib

/-!
# Verification of the RedactAI detection-and-redaction core

Shallow embedding of `src/ocr/backend/redact_ai.py` and
`src/ocr/backend/ai_analysis.py` (repository Boobeshkumar56/RedactAI),
with theorems settling the frozen claims about the natural-language
specification of the repository.

Modelling conventions:
* Python `int` is modelled as `Int` (`Nat` where the source value is
  provably non-negative, e.g. image dimensions).
* Python floor division `//` is `Int.fdiv`; `int(x)` applied to a
  non-negative float product is modelled as exact rational truncation
  (the template fractions are exact hundredths, so `int(frac * dim)`
  is `frac_hundredths * dim / 100` in `Nat`).
* The external collaborators (the Tesseract OCR engine, the Python
  `re` regular-expression engine, `json.loads`, the `curl` network
  call) enter as explicit environment parameters, as the specification
  itself treats them as black-box collaborators.
* Stateful image mutation is modelled as a pure function on an image
  represented as `Int → Int → Color`, and the orchestrator's drawing
  calls are reified into an ordered list of draw actions.
-/

namespace RedactAI

/-- A pixel-coordinate axis-aligned box `(x, y, w, h)`, origin top-left,
as used throughout `redact_ai.py`. -/
abbrev Box := Int × Int × Int × Int

/-! ## Box algebra (`redact_ai.py` lines 174-181, 327-336) -/

/-- Minimum of a non-empty integer list, Python `min`; `0` for `[]`
(Python would raise there, but `_merge_boxes` guards the empty case). -/
def minList : List Int → Int
  | [] => 0
  | x :: rest => rest.foldl min x

/-- Maximum of a non-empty integer list, Python `max`; `0` for `[]`. -/
def maxList : List Int → Int
  | [] => 0
  | x :: rest => rest.foldl max x

/-- `_merge_boxes(boxes)` (`redact_ai.py` lines 174-181): the empty list
gives the degenerate all-zero box, otherwise
`(min xs, min ys, max (x+w) - min xs, max (y+h) - min ys)`. -/
def mergeBoxes (boxes : List Box) : Box :=
  if boxes = [] then (0, 0, 0, 0)
  else
    (minList (boxes.map (fun b => b.1)),
     minList (boxes.map (fun b => b.2.1)),
     maxList (boxes.map (fun b => b.1 + b.2.2.1)) -
       minList (boxes.map (fun b => b.1)),
     maxList (boxes.map (fun b => b.2.1 + b.2.2.2)) -
       minList (boxes.map (fun b => b.2.1)))

/-- The coarsened identity key of the deduplication step
(`redact_ai.py` line 332): each coordinate floor-divided by 2. -/
def dedupKey (b : Box) : Box :=
  (Int.fdiv b.1 2, Int.fdiv b.2.1 2, Int.fdiv b.2.2.1 2, Int.fdiv b.2.2.2 2)

/-- The loop body of the deduplication step (`redact_ai.py` lines
328-336): keep a box iff its key has not been seen yet. -/
def dedupGo (seen : List Box) : List Box → List Box
  | [] => []
  | b :: rest =>
    if dedupKey b ∈ seen then dedupGo seen rest
    else b :: dedupGo (dedupKey b :: seen) rest

/-- The per-field deduplication applied to every hit list
(`redact_ai.py` lines 327-336). -/
def dedup (boxes : List Box) : List Box := dedupGo [] boxes

/-! ## Static configuration tables

`LANGUAGE_CONFIGS` (`redact_ai.py` lines 55-92) and
`NON_SENSITIVE_KEYWORDS` (lines 103-117). The non-ASCII keyword literals
are reproduced code-point for code-point as they are stored in the
repository file (the file stores them in a mojibake form; the Python
interpreter reads exactly these code points, so the embedding does too,
via `\u` escapes). Python `set` literals are modelled as lists in source
order; every use of these tables is order-independent (`any` /
membership). -/

/-- One entry of `LANGUAGE_CONFIGS`: the three per-language keyword
sets. -/
structure LangConfig where
  nameKeywords : List String
  addressKeywords : List String
  registerKeywords : List String

def LANGUAGE_CONFIGS : List (String × LangConfig) := [
  ("eng",
   ⟨["name", "candidate name", "student name", "holder", "cardholder", "full name"],
    ["address", "residential", "residence", "permanent", "house", "street", "village", "city", "state", "pincode", "pin code"],
    ["register", "regno", "reg.", "reg", "register no", "register number", "reg number", "reg num"]⟩),
  ("tam",
   ⟨["\u2021\u00c6\u2122\u2021\u00d8\u00dc\u2021\u00c6\u00d8\u2021\u00c6\u221e\u2021\u00d8\u00e7", "\u2021\u00c6\u00c6\u2021\u00d8\u00c5\u2021\u00c6\u00a5\u2021\u00d8\u00c5\u2021\u00c6\u2122\u2021\u00d8\u00e7\u2021\u00c6\u2122\u2021\u00d8\u00dc\u2021\u00c6\u00d8\u2021\u00c6\u221e\u2021\u00d8\u00e7", "\u2021\u00c6\u00c6\u2021\u00c6\u00e6\u2021\u00c6\u00a3\u2021\u00c6\u00b5\u2021\u00c6\u221e\u2021\u00d8\u00e7 \u2021\u00c6\u2122\u2021\u00d8\u00dc\u2021\u00c6\u00d8\u2021\u00c6\u221e\u2021\u00d8\u00e7", "\u2021\u00c6\u00b5\u2021\u00d8\u00e0\u2021\u00c6\u00a7\u2021\u00d8\u00e7\u2021\u00c6\u00a7\u2021\u00c6\u00f8\u2021\u00c6\u221e\u2021\u00d8\u00c5\u2021\u00c6\u2122\u2021\u00d8\u00e7\u2021\u00c6\u2122\u2021\u00c6\u00b5\u2021\u00c6\u221e\u2021\u00d8\u00e7 \u2021\u00c6\u2122\u2021\u00d8\u00dc\u2021\u00c6\u00d8\u2021\u00c6\u221e\u2021\u00d8\u00e7"],
    ["\u2021\u00c6\u00c6\u2021\u00d8\u00c5\u2021\u00c6\u00ef\u2021\u00c6\u00b5\u2021\u00c6\u221e\u2021\u00c6\u00f8", "\u2021\u00c6\u00b5\u2021\u00d8\u00c4\u2021\u00c6\u00fc\u2021\u00d8\u00e7\u2021\u00c6\u00fc\u2021\u00d8\u00c5 \u2021\u00c6\u00c6\u2021\u00d8\u00c5\u2021\u00c6\u00ef\u2021\u00c6\u00b5\u2021\u00c6\u221e\u2021\u00c6\u00f8", "\u2021\u00c6\u00a7\u2021\u00d8\u00e4\u2021\u00c6\u00fc\u2021\u00c6\u221e\u2021\u00d8\u00e7\u2021\u00c6\u2122\u2021\u00d8\u00c5 \u2021\u00c6\u00c6\u2021\u00d8\u00c5\u2021\u00c6\u00ef\u2021\u00c6\u00b5\u2021\u00c6\u221e\u2021\u00c6\u00f8", "\u2021\u00c6\u00ae\u2021\u00c6\u00f8\u2021\u00c6\u221e\u2021\u00c6\u00ae\u2021\u00d8\u00e7\u2021\u00c6\u00a7\u2021\u00c6\u221e \u2021\u00c6\u00c6\u2021\u00d8\u00c5\u2021\u00c6\u00ef\u2021\u00c6\u00b5\u2021\u00c6\u221e\u2021\u00c6\u00f8", "\u2021\u00c6\u00b5\u2021\u00d8\u00c4\u2021\u00c6\u00fc\u2021\u00d8\u00c5", "\u2021\u00c6\u00a7\u2021\u00d8\u00dc\u2021\u00c6\u221e\u2021\u00d8\u00c5", "\u2021\u00c6\u00e4\u2021\u00c6\u221e\u2021\u00d8\u00e7", "\u2021\u00c6\u00c6\u2021\u00c6\u00e6\u2021\u00c6\u00b5\u2021\u00c6\u00fc\u2021\u00d8\u00e7\u2021\u00c6\u00fc\u2021\u00c6\u00c6\u2021\u00d8\u00e7", "\u2021\u00c6\u00c6\u2021\u00c6\u00e6\u2021\u00c6\u00ae\u2021\u00c6\u00f8\u2021\u00c6\u2264\u2021\u00c6\u00c6\u2021\u00d8\u00e7", "\u2021\u00c6\u00d6\u2021\u00c6\u00fb\u2021\u00d8\u00e7\u2021\u00c6\u00f6\u2021\u00c6\u2264\u2021\u00d8\u00e7 \u2021\u00c6\u00ef\u2021\u00d8\u00c5\u2021\u00c6\u00b1\u2021\u00c6\u00f8\u2021\u00c6\u00d8\u2021\u00d8\u00c4\u2021\u00c6\u00fc\u2021\u00d8\u00c5"],
    ["\u2021\u00c6\u2122\u2021\u00c6\u00a7\u2021\u00c6\u00f8\u2021\u00c6\u00b5\u2021\u00d8\u00c5 \u2021\u00c6\u00e9\u2021\u00c6\u00a3\u2021\u00d8\u00e7", "\u2021\u00c6\u2122\u2021\u00c6\u00a7\u2021\u00c6\u00f8\u2021\u00c6\u00b5\u2021\u00d8\u00dc\u2021\u00c6\u00a3\u2021\u00d8\u00e7", "\u2021\u00c6\u00a7\u2021\u00d8\u00e4\u2021\u00c6\u00fc\u2021\u00c6\u221e\u2021\u00d8\u00e7 \u2021\u00c6\u00e9\u2021\u00c6\u00a3\u2021\u00d8\u00e7"]⟩),
  ("kan",
   ⟨["\u2021\u2264\u03c0\u2021\u2265\u00dc\u2021\u2264\u220f\u2021\u2264\u221e\u2021\u2265\u00c5", "\u2021\u2264\u2122\u2021\u2265\u00c7\u2021\u2264\u221e\u2021\u2265\u00e7\u2021\u2264\u00a3 \u2021\u2264\u03c0\u2021\u2265\u00dc\u2021\u2264\u220f\u2021\u2264\u221e\u2021\u2265\u00c5", "\u2021\u2264\u00b5\u2021\u2264\u00f8\u2021\u2264\u00b6\u2021\u2265\u00e7\u2021\u2264\u00d8\u2021\u2264\u00e6\u2021\u2264\u221e\u2021\u2265\u00e7\u2021\u2264\u2022\u2021\u2264\u00f8\u2021\u2264\u00d8 \u2021\u2264\u03c0\u2021\u2265\u00dc\u2021\u2264\u220f\u2021\u2264\u221e\u2021\u2265\u00c5", "\u2021\u2264\u00ef\u2021\u2264\u00e6\u2021\u2264\u221e\u2021\u2265\u00e7\u2021\u2264\u00b0\u2021\u2265\u00e7 \u2021\u2264\u03c0\u2021\u2265\u00e4\u2021\u2264\u00c7\u2021\u2264\u00b6\u2021\u2264\u00f8\u2021\u2264\u221e\u2021\u2265\u00c5\u2021\u2264\u00b5\u2021\u2264\u00b5\u2021\u2264\u221e \u2021\u2264\u03c0\u2021\u2265\u00dc\u2021\u2264\u220f\u2021\u2264\u221e\u2021\u2265\u00c5"],
    ["\u2021\u2264\u00b5\u2021\u2264\u00f8\u2021\u2264\u2265\u2021\u2264\u00e6\u2021\u2264\u220f", "\u2021\u2264\u00ae\u2021\u2264\u00f8\u2021\u2264\u00b5\u2021\u2264\u00e6\u2021\u2264\u220f", "\u2021\u2264\u2202\u2021\u2264\u00e6\u2021\u2264\u2202\u2021\u2265\u00e7\u2021\u2264\u00b5\u2021\u2264\u00a7 \u2021\u2264\u00b5\u2021\u2264\u00f8\u2021\u2264\u2265\u2021\u2264\u00e6\u2021\u2264\u220f", "\u2021\u2264\u00c6\u2021\u2264\u00ae\u2021\u2265\u00dc", "\u2021\u2264\u221e\u2021\u2264\u220f\u2021\u2265\u00e7\u2021\u2264\u00a7\u2021\u2265\u00dc", "\u2021\u2264\u00f3\u2021\u2265\u00e7\u2021\u2264\u221e\u2021\u2264\u00e6\u2021\u2264\u00c6", "\u2021\u2264\u00ae\u2021\u2264\u00f3\u2021\u2264\u221e", "\u2021\u2264\u00fa\u2021\u2264\u00f8\u2021\u2264\u2264\u2021\u2265\u00e7\u2021\u2264\u2264\u2021\u2265\u00dc", "\u2021\u2264\u221e\u2021\u2264\u00e6\u2021\u2264\u00fa\u2021\u2265\u00e7\u2021\u2264\u00d8", "\u2021\u2264\u2122\u2021\u2264\u00f8\u2021\u2264\u00ae\u2021\u2265\u00e7 \u2021\u2264\u00ef\u2021\u2265\u00e3\u2021\u2264\u00b0\u2021\u2265\u00e7"],
    ["\u2021\u2264\u00ae\u2021\u2265\u00e3\u2021\u2264\u00c7\u2021\u2264\u00b6\u2021\u2264\u00a3\u2021\u2264\u00f8 \u2021\u2264\u220f\u2021\u2264\u00c7\u2021\u2264\u00f1\u2021\u2265\u00e7\u2021\u2264\u00d8\u2021\u2265\u00dc", "\u2021\u2264\u221e\u2021\u2264\u00f8\u2021\u2264\u00fa\u2021\u2264\u00f8\u2021\u2264\u220f\u2021\u2265\u00e7\u2021\u2264\u00fc\u2021\u2264\u221e\u2021\u2265\u00e7 \u2021\u2264\u220f\u2021\u2264\u00c7\u2021\u2264\u00f1\u2021\u2265\u00e7\u2021\u2264\u00d8\u2021\u2265\u00dc", "\u2021\u2264\u00ef\u2021\u2265\u00e7\u2021\u2264\u221e\u2021\u2264\u00c6 \u2021\u2264\u220f\u2021\u2264\u00c7\u2021\u2264\u00f1\u2021\u2265\u00e7\u2021\u2264\u00d8\u2021\u2265\u00dc"]⟩),
  ("hin",
   ⟨["\u2021\u00a7\u00ae\u2021\u00a7\u00e6\u2021\u00a7\u00c6", "\u2021\u00a7\u2122\u2021\u2022\u00c7\u2021\u00a7\u221e\u2021\u00a7\u00e6 \u2021\u00a7\u00ae\u2021\u00a7\u00e6\u2021\u00a7\u00c6", "\u2021\u00a7\u00f5\u2021\u00a7\u00e6\u2021\u00a7\u00a7\u2021\u2022\u00e7\u2021\u00a7\u221e \u2021\u00a7\u00ef\u2021\u00a7\u00e6 \u2021\u00a7\u00ae\u2021\u00a7\u00e6\u2021\u00a7\u00c6", "\u2021\u00a7\u00ef\u2021\u00a7\u00e6\u2021\u00a7\u221e\u2021\u2022\u00e7\u2021\u00a7\u00b0\u2021\u00a7\u00df\u2021\u00a7\u00e6\u2021\u00a7\u221e\u2021\u00a7\u00ef \u2021\u00a7\u00ef\u2021\u00a7\u00e6 \u2021\u00a7\u00ae\u2021\u00a7\u00e6\u2021\u00a7\u00c6"],
    ["\u2021\u00a7\u2122\u2021\u00a7\u00a7\u2021\u00a7\u00e6", "\u2021\u00a7\u00ae\u2021\u00a7\u00f8\u2021\u00a7\u00b5\u2021\u00a7\u00e6\u2021\u00a7\u220f \u2021\u00a7\u220f\u2021\u2022\u00e7\u2021\u00a7\u2022\u2021\u00a7\u00e6\u2021\u00a7\u00ae", "\u2021\u00a7\u220f\u2021\u2022\u00e7\u2021\u00a7\u2022\u2021\u00a7\u00e6\u2021\u00a7\u00d8\u2021\u2022\u00c4 \u2021\u00a7\u2122\u2021\u00a7\u00a7\u2021\u00a7\u00e6", "\u2021\u00a7\u00f2\u2021\u00a7\u221e", "\u2021\u00a7\u00c6\u2021\u00a7\u00e6\u2021\u00a7\u221e\u2021\u2022\u00e7\u2021\u00a7\u00f3", "\u2021\u00a7\u00f3\u2021\u00a7\u00e6\u2021\u00a7\u00c5\u2021\u00a7\u00b5", "\u2021\u00a7\u2202\u2021\u00a7\u03c0\u2021\u00a7\u221e", "\u2021\u00a7\u00fa\u2021\u00a7\u00f8\u2021\u00a7\u2264\u2021\u00a7\u00e6", "\u2021\u00a7\u221e\u2021\u00a7\u00e6\u2021\u00a7\u00fa\u2021\u2022\u00e7\u2021\u00a7\u00d8", "\u2021\u00a7\u2122\u2021\u00a7\u00f8\u2021\u00a7\u00ae \u2021\u00a7\u00ef\u2021\u2022\u00e3\u2021\u00a7\u00b0"],
    ["\u2021\u00a7\u2122\u2021\u00a7\u00c7\u2021\u00a7\u00fa\u2021\u2022\u00c4\u2021\u00a7\u00ef\u2021\u00a7\u221e\u2021\u00a7\u00a3 \u2021\u00a7\u220f\u2021\u00a7\u00c7\u2021\u00a7\u00f1\u2021\u2022\u00e7\u2021\u00a7\u00d8\u2021\u00a7\u00e6", "\u2021\u00a7\u221e\u2021\u00a7\u00fa\u2021\u00a7\u00f8\u2021\u00a7\u220f\u2021\u2022\u00e7\u2021\u00a7\u00fc\u2021\u00a7\u221e \u2021\u00a7\u00ae\u2021\u00a7\u00c7\u2021\u00a7\u00a8\u2021\u00a7\u221e", "\u2021\u00a7\u00ef\u2021\u2022\u00e7\u2021\u00a7\u221e\u2021\u00a7\u00c6 \u2021\u00a7\u220f\u2021\u00a7\u00c7\u2021\u00a7\u00f1\u2021\u2022\u00e7\u2021\u00a7\u00d8\u2021\u00a7\u00e6"]⟩),
  ("tel",
   ⟨["\u2021\u221e\u2122\u2021\u00b1\u00e1\u2021\u221e\u221e\u2021\u00b1\u00c5", "\u2021\u221e\u2122\u2021\u00b1\u00c7\u2021\u221e\u221e\u2021\u00b1\u00e7\u2021\u221e\u00a7\u2021\u221e\u00f8 \u2021\u221e\u2122\u2021\u00b1\u00e1\u2021\u221e\u221e\u2021\u00b1\u00c5", "\u2021\u221e\u00b5\u2021\u221e\u00f8\u2021\u221e\u00b6\u2021\u00b1\u00e7\u2021\u221e\u00d8\u2021\u221e\u00e6\u2021\u221e\u221e\u2021\u00b1\u00e7\u2021\u221e\u2022\u2021\u221e\u00f8 \u2021\u221e\u2122\u2021\u00b1\u00e1\u2021\u221e\u221e\u2021\u00b1\u00c5", "\u2021\u221e\u00ef\u2021\u221e\u00e6\u2021\u221e\u221e\u2021\u00b1\u00e7\u2021\u221e\u00b0\u2021\u00b1\u00c5 \u2021\u221e\u03c0\u2021\u00b1\u00e3\u2021\u221e\u2264\u2021\u00b1\u00e7\u2021\u221e\u00b0\u2021\u221e\u221e\u2021\u00b1\u00e7 \u2021\u221e\u2122\u2021\u00b1\u00e1\u2021\u221e\u221e\u2021\u00b1\u00c5"],
    ["\u2021\u221e\u00f6\u2021\u221e\u00f8\u2021\u221e\u221e\u2021\u00b1\u00c5\u2021\u221e\u00ae\u2021\u221e\u00e6\u2021\u221e\u00c6\u2021\u221e\u00e6", "\u2021\u221e\u00ae\u2021\u221e\u00f8\u2021\u221e\u00b5\u2021\u221e\u00e6\u2021\u221e\u220f \u2021\u221e\u00f6\u2021\u221e\u00f8\u2021\u221e\u221e\u2021\u00b1\u00c5\u2021\u221e\u00ae\u2021\u221e\u00e6\u2021\u221e\u00c6\u2021\u221e\u00e6", "\u2021\u221e\u220f\u2021\u00b1\u00e7\u2021\u221e\u2022\u2021\u221e\u00f8\u2021\u221e\u221e \u2021\u221e\u00f6\u2021\u221e\u00f8\u2021\u221e\u221e\u2021\u00b1\u00c5\u2021\u221e\u00ae\u2021\u221e\u00e6\u2021\u221e\u00c6\u2021\u221e\u00e6", "\u2021\u221e\u00e1\u2021\u221e\u2264\u2021\u00b1\u00e7\u2021\u221e\u2264\u2021\u00b1\u00c5", "\u2021\u221e\u221e\u2021\u00b1\u00e3\u2021\u221e\u00b0\u2021\u00b1\u00e7\u2021\u221e\u00b0\u2021\u00b1\u00c5", "\u2021\u221e\u00f3\u2021\u00b1\u00e7\u2021\u221e\u221e\u2021\u221e\u00e6\u2021\u221e\u00c6\u2021\u221e\u00c7", "\u2021\u221e\u00ae\u2021\u221e\u00f3\u2021\u221e\u221e\u2021\u221e\u00c7", "\u2021\u221e\u00fa\u2021\u221e\u00f8\u2021\u221e\u2264\u2021\u00b1\u00e7\u2021\u221e\u2264\u2021\u221e\u00e6", "\u2021\u221e\u221e\u2021\u221e\u00e6\u2021\u221e\u2211\u2021\u00b1\u00e7\u2021\u221e\u00fc\u2021\u00b1\u00e7\u2021\u221e\u221e\u2021\u221e\u00c7", "\u2021\u221e\u2122\u2021\u221e\u00f8\u2021\u221e\u00ae\u2021\u00b1\u00e7 \u2021\u221e\u00ef\u2021\u00b1\u00e3\u2021\u221e\u00b0\u2021\u00b1\u00e7"],
    ["\u2021\u221e\u00ae\u2021\u221e\u00c6\u2021\u00b1\u00e3\u2021\u221e\u00b6\u2021\u00b1\u00c5 \u2021\u221e\u220f\u2021\u221e\u00c7\u2021\u221e\u00f1\u2021\u00b1\u00e7\u2021\u221e\u00d8", "\u2021\u221e\u221e\u2021\u221e\u00f8\u2021\u221e\u00fa\u2021\u221e\u00f8\u2021\u221e\u220f\u2021\u00b1\u00e7\u2021\u221e\u00fc\u2021\u221e\u221e\u2021\u00b1\u00e7 \u2021\u221e\u00ae\u2021\u221e\u00c7\u2021\u221e\u00a8\u2021\u221e\u221e\u2021\u00b1\u00e7", "\u2021\u221e\u00ef\u2021\u00b1\u00e7\u2021\u221e\u221e\u2021\u221e\u00c6 \u2021\u221e\u220f\u2021\u221e\u00c7\u2021\u221e\u00f1\u2021\u00b1\u00e7\u2021\u221e\u00d8"]⟩),
  ("mal",
   ⟨["\u2021\u00a5\u2122\u2021\u00b5\u00e1\u2021\u00a5\u221e\u2021\u00b5\u00e7", "\u2021\u00a5\u00c6\u2021\u00b5\u00c5\u2021\u00a5\u00a5\u2021\u00b5\u00c5\u2021\u00a5\u00b5\u2021\u00b5\u00aa \u2021\u00a5\u2122\u2021\u00b5\u00e1\u2021\u00a5\u221e\u2021\u00b5\u00e7", "\u2021\u00a5\u00b5\u2021\u00a5\u00f8\u2021\u00a5\u00b6\u2021\u00b5\u00e7\u2021\u00a5\u00d8\u2021\u00a5\u00e6\u2021\u00b5\u00ba\u2021\u00a5\u00a7\u2021\u00b5\u00e7\u2021\u00a5\u2022\u2021\u00a5\u00f8\u2021\u00a5\u00d8\u2021\u00b5\u00c5\u2021\u00a5\u00fc\u2021\u00b5\u00dc \u2021\u00a5\u2122\u2021\u00b5\u00e1\u2021\u00a5\u221e\u2021\u00b5\u00e7", "\u2021\u00a5\u00ef\u2021\u00a5\u00e6\u2021\u00b5\u00ba\u2021\u00a5\u00b0\u2021\u00b5\u00e7 \u2021\u00a5\u00e2\u2021\u00a5\u00fc\u2021\u00a5\u00c6\u2021\u00a5\u00d8\u2021\u00b5\u00c5\u2021\u00a5\u00fc\u2021\u00b5\u00dc \u2021\u00a5\u2122\u2021\u00b5\u00e1\u2021\u00a5\u221e\u2021\u00b5\u00e7"],
    ["\u2021\u00a5\u00b5\u2021\u00a5\u00f8\u2021\u00a5\u2264\u2021\u00a5\u00e6\u2021\u00a5\u220f\u2021\u00a5\u00c7", "\u2021\u00a5\u00a7\u2021\u00a5\u00e6\u2021\u00a5\u00c6\u2021\u00a5\u220f \u2021\u00a5\u00b5\u2021\u00a5\u00f8\u2021\u00a5\u2264\u2021\u00a5\u00e6\u2021\u00a5\u220f\u2021\u00a5\u00c7", "\u2021\u00a5\u220f\u2021\u00b5\u00e7\u2021\u00a5\u2022\u2021\u00a5\u00f8\u2021\u00a5\u221e \u2021\u00a5\u00b5\u2021\u00a5\u00f8\u2021\u00a5\u2264\u2021\u00a5\u00e6\u2021\u00a5\u220f\u2021\u00a5\u00c7", "\u2021\u00a5\u00b5\u2021\u00b5\u00c4\u2021\u00a5\u00fc\u2021\u00b5\u00e7", "\u2021\u00a5\u00a7\u2021\u00b5\u00dc\u2021\u00a5\u221e\u2021\u00b5\u00c5\u2021\u00a5\u00b5\u2021\u00b5\u00e7", "\u2021\u00a5\u00f3\u2021\u00b5\u00e7\u2021\u00a5\u221e\u2021\u00a5\u00e6\u2021\u00a5\u00c6\u2021\u00a5\u00c7", "\u2021\u00a5\u00ae\u2021\u00a5\u00f3\u2021\u00a5\u221e\u2021\u00a5\u00c7", "\u2021\u00a5\u00fa\u2021\u00a5\u00f8\u2021\u00a5\u2264\u2021\u00b5\u00e7\u2021\u00a5\u2264", "\u2021\u00a5\u220f\u2021\u00a5\u00c7\u2021\u00a5\u220f\u2021\u00b5\u00e7\u2021\u00a5\u2022\u2021\u00a5\u00e6\u2021\u00a5\u00ae\u2021\u00a5\u00c7", "\u2021\u00a5\u2122\u2021\u00a5\u00f8\u2021\u00b5\u00aa \u2021\u00a5\u00ef\u2021\u00b5\u00e3\u2021\u00a5\u00b0\u2021\u00b5\u00e7"],
    ["\u2021\u00a5\u221e\u2021\u00a5\u00fa\u2021\u00a5\u00f8\u2021\u00a5\u220f\u2021\u00b5\u00e7\u2021\u00a5\u00fc\u2021\u00b5\u00e7\u2021\u00a5\u221e\u2021\u00b5\u00e1\u2021\u00a5\u2211\u2021\u00b5\u00aa \u2021\u00a5\u00ae\u2021\u00a5\u00c6\u2021\u00b5\u00e7\u2021\u00a5\u2122\u2021\u00b5\u00ba", "\u2021\u00a5\u221e\u2021\u00a5\u00fa\u2021\u00a5\u00f8\u2021\u00a5\u220f\u2021\u00b5\u00e7\u2021\u00a5\u00b1\u2021\u00b5\u00e7\u2021\u00a5\u00b1\u2021\u00b5\u00ba \u2021\u00a5\u00ae\u2021\u00a5\u00c6\u2021\u00b5\u00e7\u2021\u00a5\u2122\u2021\u00b5\u00ba", "\u2021\u00a5\u00ef\u2021\u00b5\u00e7\u2021\u00a5\u221e\u2021\u00a5\u00c6 \u2021\u00a5\u00ae\u2021\u00a5\u00c6\u2021\u00b5\u00e7\u2021\u00a5\u2122\u2021\u00b5\u00ba"]⟩)
]

def NON_SENSITIVE_KEYWORDS : List String := [
  "government of india",
  "govt of india",
  "government",
  "unique identification",
  "uidai",
  "issued by",
  "verify",
  "signature",
  "male",
  "female",
  "gender",
  "help",
  "toll free",
  "aadhaar",
  "identification",
  "authority",
  "\u2021\u00a7\u2260\u2021\u00a7\u00e6\u2021\u00a7\u221e\u2021\u00a7\u00a7 \u2021\u00a7\u220f\u2021\u00a7\u221e\u2021\u00a7\u00ef\u2021\u00a7\u00e6\u2021\u00a7\u221e",
  "\u2021\u00a7\u220f\u2021\u00a7\u221e\u2021\u00a7\u00ef\u2021\u00a7\u00e6\u2021\u00a7\u221e",
  "\u2021\u00a7\u2122\u2021\u00a7\u03c0\u2021\u00a7\u00f6\u2021\u00a7\u00e6\u2021\u00a7\u00ae",
  "\u2021\u00a7\u2122\u2021\u2022\u00e7\u2021\u00a7\u221e\u2021\u00a7\u00e6\u2021\u00a7\u00df\u2021\u00a7\u00f8\u2021\u00a7\u00ef\u2021\u00a7\u221e\u2021\u00a7\u00a3",
  "\u2021\u00a7\u00fa\u2021\u00a7\u00e6\u2021\u00a7\u221e\u2021\u2022\u00c4 \u2021\u00a7\u00ef\u2021\u00a7\u00f8\u2021\u00a7\u00d8\u2021\u00a7\u00e6 \u2021\u00a7\u00f3\u2021\u00a7\u00d8\u2021\u00a7\u00e6",
  "\u2021\u00a7\u220f\u2021\u00a7\u00a7\u2021\u2022\u00e7\u2021\u00a7\u00d8\u2021\u00a7\u00e6\u2021\u00a7\u2122\u2021\u00a7\u00f8\u2021\u00a7\u00a7",
  "\u2021\u00a7\u2122\u2021\u2022\u00c5\u2021\u00a7\u221e\u2021\u2022\u00c5\u2021\u00a7\u2211",
  "\u2021\u00a7\u00c6\u2021\u00a7\u03c0\u2021\u00a7\u00f8\u2021\u00a7\u2264\u2021\u00a7\u00e6",
  "\u2021\u00a7\u2264\u2021\u00a7\u00f8\u2021\u00a7\u00c7\u2021\u00a7\u00f3",
  "\u2021\u00a7\u00c6\u2021\u00a7\u00b6\u2021\u00a7\u00b6",
  "\u2021\u00a7\u00fc\u2021\u2022\u00e3\u2021\u00a7\u2264 \u2021\u00a7\u00b4\u2021\u2022\u00e7\u2021\u00a7\u221e\u2021\u2022\u00c4",
  "\u2021\u00c6\u00e1\u2021\u00c6\u00ae\u2021\u00d8\u00e7\u2021\u00c6\u00a7\u2021\u00c6\u00f8\u2021\u00c6\u00d8 \u2021\u00c6\u00d6\u2021\u00c6\u221e\u2021\u00c6\u00f6\u2021\u00d8\u00c5",
  "\u2021\u00c6\u00d6\u2021\u00c6\u221e\u2021\u00c6\u00f6\u2021\u00d8\u00c5",
  "\u2021\u00c6\u00d6\u2021\u00c6\u00fc\u2021\u00d8\u00e0\u2021\u00c6\u00d8\u2021\u00c6\u00e6\u2021\u00c6\u2265\u2021\u00c6\u00c6\u2021\u00d8\u00e7",
  "\u2021\u00c6\u00dc\u2021\u00c6\u00a3\u2021\u00d8\u00e0\u2021\u00c6\u00d8\u2021\u00c6\u00c6\u2021\u00d8\u00e7",
  "\u2021\u00c6\u00b5\u2021\u00c6\u00a5\u2021\u00c6\u00f4\u2021\u00d8\u00e7\u2021\u00c6\u00ef\u2021\u00c6\u2122\u2021\u00d8\u00e7\u2021\u00c6\u2122\u2021\u00c6\u00fc\u2021\u00d8\u00e7\u2021\u00c6\u00fc\u2021\u00c6\u00a7\u2021\u00d8\u00c5",
  "\u2021\u00c6\u00f6\u2021\u00c6\u221e\u2021\u00c6\u00f8\u2021\u00c6\u2122\u2021\u00c6\u00e6\u2021\u00c6\u221e\u2021\u00d8\u00e7\u2021\u00c6\u00ef\u2021\u00d8\u00e7\u2021\u00c6\u00ef\u2021\u00c6\u00b5\u2021\u00d8\u00c5\u2021\u00c6\u00c6\u2021\u00d8\u00e7",
  "\u2021\u00c6\u00dc\u2021\u00c6\u00a3\u2021\u00d8\u00e7",
  "\u2021\u00c6\u2122\u2021\u00d8\u00dc\u2021\u00c6\u00a3\u2021\u00d8\u00e7",
  "\u2021\u00c6\u2122\u2021\u00c6\u00e6\u2021\u00c6\u2264\u2021\u00c6\u00f8\u2021\u00c6\u00a9\u2021\u00c6\u00c6\u2021\u00d8\u00e7",
  "\u2021\u00c6\u00e2\u2021\u00c6\u00a7\u2021\u00c6\u00b5\u2021\u00c6\u00f8",
  "\u2021\u00c6\u00ef\u2021\u00c6\u00fc\u2021\u00d8\u00e7\u2021\u00c6\u00fc\u2021\u00c6\u00a3\u2021\u00c6\u00c6\u2021\u00c6\u00f8\u2021\u00c6\u2264\u2021\u00d8\u00e7\u2021\u00c6\u2264\u2021\u00c6\u00e6",
  "\u2021\u2264\u2260\u2021\u2264\u00e6\u2021\u2264\u221e\u2021\u2264\u00a7 \u2021\u2264\u220f\u2021\u2264\u221e\u2021\u2265\u00e7\u2021\u2264\u00ef\u2021\u2264\u00e6\u2021\u2264\u221e",
  "\u2021\u2264\u220f\u2021\u2264\u221e\u2021\u2265\u00e7\u2021\u2264\u00ef\u2021\u2264\u00e6\u2021\u2264\u221e",
  "\u2021\u2264\u00f3\u2021\u2265\u00c5\u2021\u2264\u221e\u2021\u2265\u00c5\u2021\u2264\u00a7\u2021\u2264\u00f8\u2021\u2264\u00ae",
  "\u2021\u2264\u2122\u2021\u2265\u00e7\u2021\u2264\u221e\u2021\u2264\u00e6\u2021\u2264\u00df\u2021\u2264\u00f8\u2021\u2264\u00ef\u2021\u2264\u00e6\u2021\u2264\u221e",
  "\u2021\u2264\u00ae\u2021\u2265\u00c4\u2021\u2264\u00b0\u2021\u2264\u00f8\u2021\u2264\u00b6",
  "\u2021\u2264\u2122\u2021\u2264\u221e\u2021\u2264\u00f8\u2021\u2264\u2202\u2021\u2265\u00c4\u2021\u2264\u2264\u2021\u2264\u00f8\u2021\u2264\u220f\u2021\u2264\u00f8",
  "\u2021\u2264\u2122\u2021\u2265\u00c5\u2021\u2264\u221e\u2021\u2265\u00c5\u2021\u2264\u2211",
  "\u2021\u2264\u00c6\u2021\u2264\u03c0\u2021\u2264\u00f8\u2021\u2264\u2265\u2021\u2265\u00dc",
  "\u2021\u2264\u2264\u2021\u2264\u00f8\u2021\u2264\u00c7\u2021\u2264\u00f3",
  "\u2021\u2264\u220f\u2021\u2264\u03c0\u2021\u2264\u00e6\u2021\u2264\u00d8",
  "\u2021\u2264\u00fc\u2021\u2265\u00e3\u2021\u2264\u2264\u2021\u2265\u00e7 \u2021\u2264\u00b4\u2021\u2265\u00e7\u2021\u2264\u221e\u2021\u2265\u00c4",
  "\u2021\u221e\u2260\u2021\u221e\u00e6\u2021\u221e\u221e\u2021\u221e\u00a7 \u2021\u221e\u2122\u2021\u00b1\u00e7\u2021\u221e\u221e\u2021\u221e\u2260\u2021\u00b1\u00c5\u2021\u221e\u00a7\u2021\u00b1\u00e7\u2021\u221e\u00b5\u2021\u221e\u00c7",
  "\u2021\u221e\u2122\u2021\u00b1\u00e7\u2021\u221e\u221e\u2021\u221e\u2260\u2021\u00b1\u00c5\u2021\u221e\u00a7\u2021\u00b1\u00e7\u2021\u221e\u00b5\u2021\u221e\u00c7",
  "\u2021\u221e\u00f3\u2021\u00b1\u00c5\u2021\u221e\u221e\u2021\u00b1\u00e7\u2021\u221e\u00a7\u2021\u221e\u00f8\u2021\u221e\u00c7\u2021\u221e\u2122\u2021\u00b1\u00c5",
  "\u2021\u221e\u00d6\u2021\u221e\u2022\u2021\u221e\u00e6\u2021\u221e\u221e\u2021\u221e\u00f8\u2021\u221e\u00fc\u2021\u00b1\u00c4",
  "\u2021\u221e\u00fa\u2021\u221e\u00e6\u2021\u221e\u221e\u2021\u00b1\u00c4 \u2021\u221e\u00f6\u2021\u00b1\u00e1\u2021\u221e\u00d8\u2021\u221e\u00a8\u2021\u221e\u00b0\u2021\u221e\u00f8\u2021\u221e\u00c7\u2021\u221e\u00b6\u2021\u221e\u00f8",
  "\u2021\u221e\u00df\u2021\u00b1\u00c9\u2021\u221e\u00b5\u2021\u00b1\u00c4\u2021\u221e\u00ef\u2021\u221e\u221e\u2021\u221e\u00f8\u2021\u221e\u00c7\u2021\u221e\u00f6\u2021\u221e\u00c7\u2021\u221e\u00b0\u2021\u221e\u00f8",
  "\u2021\u221e\u2122\u2021\u00b1\u00c5\u2021\u221e\u221e\u2021\u00b1\u00c5\u2021\u221e\u2211\u2021\u00b1\u00c5\u2021\u221e\u00b0\u2021\u00b1\u00c5",
  "\u2021\u221e\u220f\u2021\u00b1\u00e7\u2021\u221e\u00a7\u2021\u00b1\u00e7\u2021\u221e\u221e\u2021\u00b1\u00c4",
  "\u2021\u221e\u2264\u2021\u221e\u00f8\u2021\u221e\u00c7\u2021\u221e\u00f3\u2021\u221e\u00c7",
  "\u2021\u221e\u220f\u2021\u221e\u03c0\u2021\u221e\u00e6\u2021\u221e\u00d8\u2021\u221e\u00c7",
  "\u2021\u221e\u00fc\u2021\u00b1\u00e3\u2021\u221e\u2264\u2021\u00b1\u00e7 \u2021\u221e\u00b4\u2021\u00b1\u00e7\u2021\u221e\u221e\u2021\u00b1\u00c4",
  "\u2021\u00a5\u00e1\u2021\u00a5\u00ae\u2021\u00b5\u00e7\u2021\u00a5\u00a7\u2021\u00b5\u00e7\u2021\u00a5\u00d8 \u2021\u00a5\u220f\u2021\u00b5\u00ba\u2021\u00a5\u00ef\u2021\u00b5\u00e7\u2021\u00a5\u00ef\u2021\u00a5\u00e6\u2021\u00b5\u00ba",
  "\u2021\u00a5\u220f\u2021\u00b5\u00ba\u2021\u00a5\u00ef\u2021\u00b5\u00e7\u2021\u00a5\u00ef\u2021\u00a5\u00e6\u2021\u00b5\u00ba",
  "\u2021\u00a5\u00a7\u2021\u00a5\u00f8\u2021\u00a5\u221e\u2021\u00a5\u00f8\u2021\u00a5\u00f6\u2021\u00b5\u00e7\u2021\u00a5\u00f6\u2021\u00a5\u00b1\u2021\u00a5\u00f8\u2021\u00a5\u00d8\u2021\u00b5\u03a9",
  "\u2021\u00a5\u00d6\u2021\u00a5\u00a7\u2021\u00b5\u00e3\u2021\u00a5\u00b1\u2021\u00a5\u00f8\u2021\u00a5\u00b1\u2021\u00b5\u00e7\u2021\u00a5\u00b1\u2021\u00a5\u00f8",
  "\u2021\u00a5\u00ae\u2021\u00b5\u03a9\u2021\u00a5\u00ef\u2021\u00a5\u00f8\u2021\u00a5\u00d8\u2021\u00a5\u00a7\u2021\u00b5\u00e7",
  "\u2021\u00a5\u2122\u2021\u00a5\u221e\u2021\u00a5\u00f8\u2021\u00a5\u2202\u2021\u00b5\u00e3\u2021\u00a5\u00df\u2021\u00a5\u00f8\u2021\u00a5\u00ef\u2021\u00b5\u00e7\u2021\u00a5\u00ef\u2021\u00b5\u00c5\u2021\u00a5\u00ef",
  "\u2021\u00a5\u2122\u2021\u00b5\u00c5\u2021\u00a5\u221e\u2021\u00b5\u00c5\u2021\u00a5\u2211\u2021\u00b5\u00aa",
  "\u2021\u00a5\u220f\u2021\u00b5\u00e7\u2021\u00a5\u00a7\u2021\u00b5\u00e7\u2021\u00a5\u221e\u2021\u00b5\u00c4",
  "\u2021\u00a5\u2264\u2021\u00a5\u00f8\u2021\u00a5\u00c7\u2021\u00a5\u00f3\u2021\u00a5\u00c7",
  "\u2021\u00a5\u220f\u2021\u00a5\u03c0\u2021\u00a5\u00e6\u2021\u00a5\u00d8\u2021\u00a5\u00c7",
  "\u2021\u00a5\u00fc\u2021\u00b5\u00e3\u2021\u00b5\u00e6 \u2021\u00a5\u00b4\u2021\u00b5\u00e7\u2021\u00a5\u221e\u2021\u00b5\u00c4"
]

/-! ## Template geometry store (`redact_ai.py` lines 27-52)

Every fractional coordinate in `TEMPLATES` is an exact multiple of
1/100, so it is stored as an integer number of hundredths; the absolute
pixel value `int(frac * dim)` of `redact_image` is then the exact
truncation `hund * dim / 100` in `Nat`. -/

/-- One template field entry: fractional rectangle (in hundredths of the
image dimensions) plus display label. -/
structure TField where
  x : Nat
  y : Nat
  w : Nat
  h : Nat
  label : String
deriving DecidableEq, Repr

/-- The shared aadhaar template entries; the source repeats the same
four entries verbatim under both spellings (lines 28-40). -/
def aadhaarTemplate : List (String × TField) := [
  ("name", ⟨12, 22, 60, 8, "Name"⟩),
  ("aadhaar_number", ⟨12, 34, 50, 8, "Aadhaar Number"⟩),
  ("address", ⟨12, 46, 70, 12, "Address"⟩),
  ("dob", ⟨12, 28, 40, 7, "Date of Birth"⟩)]

/-- `TEMPLATES` (lines 27-52). -/
def TEMPLATES : List (String × List (String × TField)) := [
  ("aadhaar", aadhaarTemplate),
  ("aadhar", aadhaarTemplate),
  ("pan", [
    ("pan_number", ⟨8, 34, 50, 9, "PAN"⟩),
    ("name", ⟨8, 20, 70, 9, "Name"⟩),
    ("dob", ⟨8, 26, 50, 8, "Date of Birth"⟩)]),
  ("passport", [
    ("name", ⟨12, 18, 60, 7, "Name"⟩),
    ("passport_number", ⟨12, 28, 45, 7, "Passport Number"⟩),
    ("nationality", ⟨12, 36, 50, 6, "Nationality"⟩),
    ("dob", ⟨12, 42, 40, 6, "Date of Birth"⟩)])]

/-! ## String helpers -/

/-- Python `str.lower()`, character by character. (`Char.toLower`
lower-cases the ASCII range; Python also folds some non-ASCII letters,
which none of the claims exercise.) Defined over the character list so
that it evaluates by kernel reduction. -/
def strLower (s : String) : String := String.mk (s.toList.map Char.toLower)

/-- Python `str.strip()`: drop leading and trailing whitespace. Defined
over the character list so that it evaluates by kernel reduction. -/
def strTrim (s : String) : String :=
  String.mk
    (((s.toList.dropWhile Char.isWhitespace).reverse.dropWhile
      Char.isWhitespace).reverse)

/-- `listStartsWith l p` is true when `p` is an initial segment of `l`. -/
def listStartsWith : List Char → List Char → Bool
  | _, [] => true
  | [], _ :: _ => false
  | a :: as, b :: bs => a == b && listStartsWith as bs

/-- `p` occurs as a contiguous segment of the second argument. -/
def strContainsAux (p : List Char) : List Char → Bool
  | [] => listStartsWith [] p
  | c :: t => listStartsWith (c :: t) p || strContainsAux p t

/-- Python substring containment `needle in hay`. -/
def strContains (hay needle : String) : Bool :=
  strContainsAux needle.toList hay.toList

/-- `is_non_sensitive` (`redact_ai.py` lines 223-228): true when any
configured non-sensitive term is a substring of the lower-cased text.
-/
def isNonSensitive (text : String) : Bool :=
  NON_SENSITIVE_KEYWORDS.any (fun term => strContains (strLower text) term)

/-! ## OCR token stream model

The `data` dictionary produced by `pytesseract.image_to_data`
(`redact_ai.py` line 171): parallel per-token lists. Out-of-range access
never occurs in the source (all lists have equal length); `getD`
defaults stand in for the always-in-range accesses. -/

/-- The OCR token stream: parallel attribute lists, one entry per
recognized word. -/
structure OcrData where
  text : List String
  left : List Int
  top : List Int
  width : List Int
  height : List Int
  lineNum : List Nat

/-- `data['text'][i]`. -/
def OcrData.wordAt (d : OcrData) (i : Nat) : String := d.text.getD i ""

/-- `data['line_num'][i]`. -/
def OcrData.lineAt (d : OcrData) (i : Nat) : Nat := d.lineNum.getD i 0

/-- `(data['left'][i], data['top'][i], data['width'][i], data['height'][i])`. -/
def OcrData.boxAt (d : OcrData) (i : Nat) : Box :=
  (d.left.getD i 0, d.top.getD i 0, d.width.getD i 0, d.height.getD i 0)

/-- `_words_after_keyword(i, data, max_words)` (`redact_ai.py` lines
183-188): the indices of the first `max_words` non-empty tokens after
position `i` on the same OCR line, together with their joined text. -/
def wordsAfterKeyword (data : OcrData) (i : Nat) (maxWords : Nat) :
    String × List Nat :=
  let line := data.lineAt i
  let indices := (List.range data.text.length).filter
    (fun j => decide (i + 1 ≤ j) && (data.lineAt j == line) &&
      !(strTrim (data.wordAt j) == ""))
  let take := indices.take maxWords
  (strTrim (String.intercalate " " (take.map (fun j => data.wordAt j))), take)

/-- The offset-tracking pass of `detect_entities_from_ocr`
(`redact_ai.py` lines 213-220): for each non-empty stripped word, the
character offset at which it starts in the space-joined full text,
paired with its token index. `joinedLen`/`nonEmptySeen` carry
`len(" ".join(text_builder))` and whether the builder is non-empty. -/
def buildStartsGo (idx joinedLen : Nat) (nonEmptySeen : Bool) :
    List String → List (Nat × Nat)
  | [] => []
  | w :: rest =>
    if w = "" then buildStartsGo (idx + 1) joinedLen nonEmptySeen rest
    else (joinedLen, idx) ::
      buildStartsGo (idx + 1)
        (if nonEmptySeen then joinedLen + 1 + w.length else w.length) true rest

/-- `starts` as built on lines 213-220 from the stripped word list. -/
def buildStarts (words : List String) : List (Nat × Nat) :=
  buildStartsGo 0 0 false words

/-- `full_text = " ".join(text_builder)` (line 220). -/
def fullTextOf (words : List String) : String :=
  String.intercalate " " (words.filter (fun w => w ≠ ""))

/-- The span-to-token mapping shared by the three regex passes
(`redact_ai.py` lines 234-240, 263-269, 277-283): keep every token whose
character range overlaps the match span `[mStart, mEnd]`. -/
def tokenIdxsForSpan (words : List String) (starts : List (Nat × Nat))
    (mStart mEnd : Nat) : List Nat :=
  (starts.filter (fun p =>
    let w := strTrim (words.getD p.2 "")
    let endChar := p.1 + w.length
    !(decide (endChar < mStart) || decide (p.1 > mEnd)))).map (fun p => p.2)

/-- One regex pass (lines 233-243 / 262-272 / 276-286): for each match
span produced by the `re` engine, merge the boxes of the overlapping
tokens; spans overlapping no token are dropped. -/
def regexSpanHits (data : OcrData) (words : List String)
    (starts : List (Nat × Nat)) (spans : List (Nat × Nat)) : List Box :=
  spans.filterMap (fun s =>
    let idxs := tokenIdxsForSpan words starts s.1 s.2
    if idxs = [] then none
    else some (mergeBoxes (idxs.map (fun i => data.boxAt i))))

/-- One keyword-proximity pass (lines 292-301, 304-313, 316-325): for
every token whose lower-cased stripped text contains a configured
keyword, take the next `maxWords` non-empty same-line tokens; skip the
hit if no token follows or the joined text contains a non-sensitive
term, otherwise record the merged box. -/
def keywordHits (data : OcrData) (kws : List String) (maxWords : Nat) :
    List Box :=
  (List.range data.text.length).filterMap (fun i =>
    let w := strLower (strTrim (data.wordAt i))
    if kws.any (fun kw => strContains w kw) then
      let idxs := (wordsAfterKeyword data i maxWords).2
      if idxs = [] then none
      else
        let t := strLower (String.intercalate " "
          (idxs.map (fun j => data.wordAt j)))
        if isNonSensitive t then none
        else some (mergeBoxes (idxs.map (fun j => data.boxAt j)))
    else none)

/-- Language resolution (lines 196-201): first `+`-component, falling
back to English when the code has no configuration entry. -/
def primaryLang (lang : String) : String :=
  let primary :=
    if strContains lang "+" then (lang.splitOn "+").headD lang else lang
  if (LANGUAGE_CONFIGS.lookup primary).isSome then primary else "eng"

/-- The keyword configuration selected on lines 203-205. -/
def langConfigFor (lang : String) : LangConfig :=
  (LANGUAGE_CONFIGS.lookup (primaryLang lang)).getD ⟨[], [], []⟩

/-- The results of the Python `re` engine on the reconstructed full
text, supplied as an environment: `finditer` span lists for
`AADHAAR_RE`, `PAN_RE` and `DATE_RE` (`redact_ai.py` lines 95-97). The
specification treats the regex engine as part of the pattern-matcher
collaboration surface, and no claim depends on the concrete patterns. -/
structure ReEnv where
  aadhaarSpans : String → List (Nat × Nat)
  panSpans : String → List (Nat × Nat)
  dateSpans : String → List (Nat × Nat)

/-- The exception that `detect_entities_from_ocr` raises whenever
`"aadhaar_number"` is requested: line 249 reads the local variable
`lowered`, which is first assigned only on line 289. -/
def unboundLocalMsg : String :=
  "UnboundLocalError: local variable referenced before assignment"

/-- `detect_entities_from_ocr(data, requested_fields, debug, lang)`
(`redact_ai.py` lines 190-343), split into the per-field hit lists
(`detectHitsFor`) and the driver (`detectEntitiesFromOcr`). Python's
`requested_fields` set is modelled as a duplicate-free list; all uses
are membership tests and the `{f: [] for f in requested_fields}`
initialization, so only membership and an iteration order matter, and
the per-field passes (lines 261-272 pan, 274-286 dob, 291-301 name,
303-313 address, 315-325 register; note the `max_words` constants 4,
10 and 2) are independent of each other and pure, so hoisting them into
a per-field function is semantics-preserving. When `"aadhaar_number"`
is requested, the regex loop on lines 233-243 runs (its result is
discarded) and then line 249 raises `UnboundLocalError` (`lowered` is
assigned only on line 289); lines 250-258 are dead code and have no
embedding. -/
def detectHitsFor (env : ReEnv) (data : OcrData) (lang : String)
    (f : String) : List Box :=
  let words := data.text.map strTrim
  let starts := buildStarts words
  let fullText := fullTextOf words
  let cfg := langConfigFor lang
  if f = "pan_number" then
    regexSpanHits data words starts (env.panSpans fullText)
  else if f = "dob" then
    regexSpanHits data words starts (env.dateSpans fullText)
  else if f = "name" then keywordHits data cfg.nameKeywords 4
  else if f = "address" then keywordHits data cfg.addressKeywords 10
  else if f = "register_number" then keywordHits data cfg.registerKeywords 2
  else []

/-- See the doc comment above `detectHitsFor`. -/
def detectEntitiesFromOcr (env : ReEnv) (data : OcrData)
    (requestedFields : List String) (lang : String) :
    Except String (List (String × List Box)) :=
  let words := data.text.map strTrim
  let starts := buildStarts words
  let fullText := fullTextOf words
  if "aadhaar_number" ∈ requestedFields then
    let _discarded := regexSpanHits data words starts (env.aadhaarSpans fullText)
    Except.error unboundLocalMsg
  else
    Except.ok (requestedFields.map
      (fun f => (f, dedup (detectHitsFor env data lang f))))

/-! ## The redaction orchestrator (`redact_ai.py` lines 370-433) -/

/-- The requested field set of `redact_image` (lines 378-386):
lower-cased permanent+temporary fields, with `"aadhaar_number"` forced
in for the two aadhaar spellings. Python's `set` is modelled as a
duplicate-free list in first-insertion order. -/
def reqFields (docType : String)
    (permanentFields temporaryFields : List String) : List String :=
  let base := ((permanentFields ++ temporaryFields).map strLower).eraseDups
  if strLower docType = "aadhar" ∨ strLower docType = "aadhaar" then
    if "aadhaar_number" ∈ base then base else base ++ ["aadhaar_number"]
  else base

/-- Document-type normalization (lines 381-386). -/
def docTypeNormalized (docType : String) : String :=
  if strLower docType = "aadhar" ∨ strLower docType = "aadhaar" then "aadhaar"
  else strLower docType

/-- `int(frac * dim)` for a template fraction stored in hundredths
(lines 414-417, 427-429): exact truncated scaling. -/
def scaleDim (hund dim : Nat) : Nat := hund * dim / 100

/-- The per-field style choice repeated on lines 402, 418 and 428:
`"black" if field in permanent_fields else "yellow"`. The membership
test uses the caller's `permanent_fields` list as given. -/
def redactionStyle (field : String) (permanentFields : List String) : String :=
  if field ∈ permanentFields then "black" else "yellow"

/-- One call to `draw_redactions` issued by `redact_image`, reified:
the field it was issued for, the rectangles, the style, and which code
site issued it (`"ocr"` lines 400-406, `"template"` lines 409-421,
`"fallback"` lines 425-431). -/
structure DrawAction where
  field : String
  boxes : List Box
  style : String
  site : String
deriving DecidableEq, Repr

/-- The OCR-tier loop of `redact_image` (lines 399-406): one draw call
per detected field with a non-empty box list. -/
def ocrActionsOf (permanentFields : List String)
    (boxesByField : List (String × List Box)) : List DrawAction :=
  boxesByField.filterMap (fun p =>
    if p.2 ≠ [] then
      some ⟨p.1, p.2, redactionStyle p.1 permanentFields, "ocr"⟩
    else none)

/-- The `fields_redacted` set built by the OCR-tier loop (lines
399-404): exactly the fields whose detected box list is non-empty.
(The template tier never adds to it — see C2.) -/
def fieldsRedactedOf (boxesByField : List (String × List Box)) : List String :=
  (boxesByField.filter (fun p => p.2 ≠ [])).map (fun p => p.1)

/-- The template-tier loop of `redact_image` (lines 408-421): for each
requested field with a template entry that the OCR tier did not
satisfy, one draw call with the scaled template rectangle. -/
def templateActionsOf (norm : String) (req satisfied : List String)
    (permanentFields : List String) (W H : Nat) : List DrawAction :=
  match TEMPLATES.lookup norm with
  | none => []
  | some tf =>
    req.filterMap (fun f =>
      match tf.lookup f with
      | none => none
      | some e =>
        if f ∈ satisfied then none
        else some ⟨f,
          [((scaleDim e.x W : Int), (scaleDim e.y H : Int),
            (scaleDim e.w W : Int), (scaleDim e.h H : Int))],
          redactionStyle f permanentFields, "template"⟩)

/-- The Tier-3 fallback of `redact_image` (lines 423-431): the
hard-coded wide rectangle for `aadhaar_number`, drawn when the document
type is aadhaar, the field is requested and it is not in
`fields_redacted` (note: the template tier never adds to
`fields_redacted`). -/
def fallbackActionsOf (norm : String) (req satisfied : List String)
    (permanentFields : List String) (W H : Nat) : List DrawAction :=
  if norm = "aadhaar" ∧ "aadhaar_number" ∈ req ∧
      "aadhaar_number" ∉ satisfied then
    [⟨"aadhaar_number",
      [((scaleDim 10 W : Int), (scaleDim 34 H : Int),
        (scaleDim 80 W : Int), (scaleDim 8 H : Int))],
      redactionStyle "aadhaar_number" permanentFields, "fallback"⟩]
  else []

/-- `redact_image` (lines 370-433), from the point where the OCR
collaborator has produced `data` for the preprocessed image of pixel
dimensions `W×H`. The result is the ordered list of draw actions
together with the `fields_redacted` set (as a list), or the propagated
exception. -/
def redactImage (env : ReEnv) (data : OcrData) (W H : Nat)
    (docType : String) (permanentFields temporaryFields : List String)
    (lang : String) : Except String (List DrawAction × List String) :=
  let req := reqFields docType permanentFields temporaryFields
  let norm := docTypeNormalized docType
  match detectEntitiesFromOcr env data req lang with
  | Except.error e => Except.error e
  | Except.ok boxesByField =>
    let satisfied := fieldsRedactedOf boxesByField
    Except.ok
      (ocrActionsOf permanentFields boxesByField ++
        templateActionsOf norm req satisfied permanentFields W H ++
        fallbackActionsOf norm req satisfied permanentFields W H,
       satisfied)

/-! ## Custom redactions (`redact_ai.py` lines 436-462)

The image is modelled as a total pixel map `Int → Int → Color` in BGR;
`cv2.rectangle(img, (x, y), (x+w, y+h), color, -1)` fills the rectangle
with both corner rows/columns inclusive. -/

/-- A BGR color triple. -/
abbrev Color := Int × Int × Int

/-- A pixel map. -/
abbrev Img := Int → Int → Color

/-- The `position` sub-dictionary of one redaction directive; a missing
key is `none` (Python `.get` with default `0`). -/
structure RPos where
  x : Option Int
  y : Option Int
  width : Option Int
  height : Option Int

/-- One custom redaction directive. -/
structure CustomRedaction where
  position : RPos
  method : Option String

/-- Filled-rectangle painting, corners inclusive. -/
def fillRect (img : Img) (x y w h : Int) (c : Color) : Img :=
  fun px py =>
    if x ≤ px ∧ px ≤ x + w ∧ y ≤ py ∧ py ≤ y + h then c else img px py

/-- The color chosen on lines 451-460: black for permanent, yellow for
temporary brush, gray for temporary selection. -/
def customColor (redactionType method : String) : Color :=
  if redactionType = "permanent" then (0, 0, 0)
  else if method = "brush" then (0, 255, 255)
  else (192, 192, 192)

/-- `apply_custom_redactions(image_path, redactions, redaction_type)`
(lines 436-462), from the point where the image has been read: each
directive paints its rectangle only when all four coordinates are
strictly positive (line 450), otherwise it is skipped silently. -/
def applyCustomRedactions (img : Img) (redactions : List CustomRedaction)
    (redactionType : String) : Img :=
  redactions.foldl (fun acc r =>
    let x := r.position.x.getD 0
    let y := r.position.y.getD 0
    let w := r.position.width.getD 0
    let h := r.position.height.getD 0
    let method := r.method.getD "select"
    if x > 0 ∧ y > 0 ∧ w > 0 ∧ h > 0 then
      fillRect acc x y w h (customColor redactionType method)
    else acc) img

/-! ## External classifier bridge (`ai_analysis.py`) -/

/-- One entry of the classifier's `sensitive_info` list; a missing key
is `none` (the source reads every key with `.get` and a default). -/
structure ClassifierInfo where
  text : Option String
  category : Option String
  confidence : Option Int
  reason : Option String
deriving DecidableEq, Repr

/-- One OCR-extracted field handed to `enhance_document_fields`; the
dictionary keys other than `"text"` are never inspected or modified
(`field.copy()` preserves them) and are carried as an opaque payload. -/
structure OcrField where
  text : String
  payload : Nat
deriving DecidableEq, Repr

/-- The outcome of `enhance_document_fields` for one field: either the
original dictionary (`category`/`aiConfidence`/`reason` keys absent,
not marked sensitive) or the copy annotated on lines 475-479. -/
structure EnhancedField where
  base : OcrField
  category : Option String
  aiConfidence : Option Int
  reason : Option String
  sensitive : Bool
deriving DecidableEq, Repr

/-- `len(set(a) & set(b))` for lower-cased texts: the number of distinct
characters of `a` that also occur in `b`. -/
def charOverlapCount (a b : String) : Nat :=
  ((a.toList.eraseDups).filter (fun c => c ∈ b.toList)).length

/-- `len(set(a))`. -/
def charSetSize (a : String) : Nat := a.toList.eraseDups.length

/-- The matching condition of `enhance_document_fields`
(`ai_analysis.py` lines 468-472): case-insensitive equality, substring
containment either way, or character-set overlap strictly greater than
`0.7 * len(set(field_text.lower()))`. The float literal `0.7` is
modelled as the exact rational `7/10` (the comparison is between an
integer and `0.7 * n`; for the character-set sizes exercised here the
double rounding of `0.7 * n` never crosses an integer). -/
def fieldMatches (fieldText infoText : String) : Bool :=
  let ft := strLower fieldText
  let it := strLower infoText
  ft == it || strContains it ft || strContains ft it ||
    decide (10 * charOverlapCount ft it > 7 * charSetSize ft)

/-- Modelled from the spec: the matching policy as §4.6 words it —
identical except that the 70% character-set-overlap threshold is taken
"relative to the shorter string's character-set size" instead of the
OCR field text's. Stated only to compare with `fieldMatches`, the
policy the code implements. -/
def specMatchPolicy (fieldText infoText : String) : Bool :=
  let ft := strLower fieldText
  let it := strLower infoText
  let shorterSetSize :=
    if it.length < ft.length then charSetSize it else charSetSize ft
  ft == it || strContains it ft || strContains ft it ||
    decide (10 * charOverlapCount ft it > 7 * shorterSetSize)

/-- The per-field body of the loop on `ai_analysis.py` lines 459-487:
annotate with the first matching classifier span (`break` after the
first hit), or pass the field through unannotated. -/
def enhanceField (f : OcrField) (infos : List ClassifierInfo) : EnhancedField :=
  match infos.find? (fun i => fieldMatches f.text (i.text.getD "")) with
  | some i =>
    ⟨f, some (i.category.getD "Unknown"), some (i.confidence.getD 70),
     some (i.reason.getD "Identified as sensitive information"), true⟩
  | none => ⟨f, none, none, none, false⟩

/-- `enhance_document_fields(extracted_fields, document_type)`
(`ai_analysis.py` lines 433-488). The `sensitive_info` list obtained
from `analyze_document_text` on line 454 enters as the `analysis`
parameter (that call is modelled separately by `analyzeDocumentText`);
the reconciliation loop is embedded as is. -/
def enhanceDocumentFields (extracted : List OcrField)
    (analysis : List ClassifierInfo) : List EnhancedField :=
  if extracted = [] then []
  else extracted.map (fun f => enhanceField f analysis)

/-! ## `analyze_document_text` (`ai_analysis.py` lines 29-208)

The function's own logic is branching on the outcomes of four
collaborators: the `GEMINI_API_KEY` environment variable, the `curl`
subprocess, `json.loads`, and — in every failure branch — the pure
regex analyzer `analyze_with_regex` (lines 210-431, a function of the
input text alone). Those collaborators enter as an environment record;
the claims about this function concern only its control flow, which is
embedded branch for branch. JSON values returned by `json.loads` are
the usual inductive. -/

/-- A parsed JSON value. -/
inductive JVal where
  | jnull : JVal
  | jbool : Bool → JVal
  | jnum : Int → JVal
  | jstr : String → JVal
  | jarr : List JVal → JVal
  | jobj : List (String × JVal) → JVal

/-- Dictionary lookup on a JSON value. -/
def JVal.objLookup : JVal → String → Option JVal
  | JVal.jobj kvs, k => kvs.lookup k
  | _, _ => none

/-- Lines 170-173: `response_json["candidates"][0]["content"]["parts"][0]["text"]`
behind the shape checks; any shape deviation leads to the same regex
fallback (via the explicit checks or the enclosing `except`). -/
def extractResponseText (v : JVal) : Option String :=
  match v.objLookup "candidates" with
  | some (JVal.jarr (c :: _)) =>
    match c.objLookup "content" with
    | some content =>
      match content.objLookup "parts" with
      | some (JVal.jarr (p :: _)) =>
        match p.objLookup "text" with
        | some (JVal.jstr s) => some s
        | _ => none
      | _ => none
    | none => none
  | _ => none

/-- `re.search(r'\[.*?\]', response_text, re.DOTALL)` (line 176): the
leftmost match runs from the first `[` to the first `]` after it; if
the first `[` has no `]` after it, no later `[` has one either, so
there is no match. -/
def firstBracketSlice (s : String) : Option String :=
  match s.toList.dropWhile (fun c => c ≠ '[') with
  | [] => none
  | lb :: rest =>
    if rest.elem ']' then
      some (String.mk (lb :: (rest.takeWhile (fun c => c ≠ ']') ++ [']'])))
    else none

/-- The collaborator outcomes `analyze_document_text` branches on:
the API key (`None` or a string; Python treats `""` as missing too),
the `curl` call (`Except.error` = non-zero return code with stderr,
`Except.ok` = captured stdout), `json.loads` (`none` =
`JSONDecodeError`), and the pure regex analyzer. -/
structure GeminiEnv where
  apiKey : Option String
  curlOutcome : Except String String
  jsonParse : String → Option JVal
  regexAnalyze : String → JVal

/-- `analyze_document_text(text, document_type)` (`ai_analysis.py`
lines 29-208): the full fallback chain. Every failure branch — missing
key (lines 46-48), `curl` failure (157-159), unparseable response
(200-203), unexpected response shape (170-173, 196-198), unparseable
extracted JSON (190-194) — returns `analyze_with_regex(text)`; only a
fully parsed classifier payload is returned as is (line 189). -/
def analyzeDocumentText (env : GeminiEnv) (text : String) : JVal :=
  if (env.apiKey.getD "") = "" then env.regexAnalyze text
  else
    match env.curlOutcome with
    | Except.error _ => env.regexAnalyze text
    | Except.ok stdout =>
      match env.jsonParse stdout with
      | none => env.regexAnalyze text
      | some rj =>
        match extractResponseText rj with
        | none => env.regexAnalyze text
        | some responseText =>
          let jsonContent :=
            strTrim ((firstBracketSlice responseText).getD responseText)
          match env.jsonParse jsonContent with
          | some fields => fields
          | none => env.regexAnalyze text

/-! Helper lemmas about `minList`/`maxList`. -/

theorem foldl_min_le_init (ys : List Int) (x : Int) : ys.foldl min x ≤ x := by
  induction ys generalizing x with
  | nil => simp
  | cons y ys ih =>
    simp only [List.foldl_cons]
    exact le_trans (ih _) (min_le_left _ _)

theorem foldl_min_le_mem (ys : List Int) (x a : Int) (h : a ∈ ys) :
    ys.foldl min x ≤ a := by
  induction ys generalizing x with
  | nil => simp at h
  | cons y ys ih =>
    simp only [List.foldl_cons]
    rcases List.mem_cons.mp h with rfl | h2
    · exact le_trans (foldl_min_le_init ys _) (min_le_right _ _)
    · exact ih _ h2

theorem foldl_min_mem (ys : List Int) (x : Int) :
    ys.foldl min x = x ∨ ys.foldl min x ∈ ys := by
  induction ys generalizing x with
  | nil => simp
  | cons y ys ih =>
    simp only [List.foldl_cons]
    rcases ih (min x y) with h | h
    · rw [h]
      rcases min_choice x y with hc | hc <;> simp [hc]
    · right
      exact List.mem_cons_of_mem _ h

theorem le_foldl_max_init (ys : List Int) (x : Int) : x ≤ ys.foldl max x := by
  induction ys generalizing x with
  | nil => simp
  | cons y ys ih =>
    simp only [List.foldl_cons]
    exact le_trans (le_max_left _ _) (ih _)

theorem le_foldl_max_mem (ys : List Int) (x a : Int) (h : a ∈ ys) :
    a ≤ ys.foldl max x := by
  induction ys generalizing x with
  | nil => simp at h
  | cons y ys ih =>
    simp only [List.foldl_cons]
    rcases List.mem_cons.mp h with rfl | h2
    · exact le_trans (le_max_right _ _) (le_foldl_max_init ys _)
    · exact ih _ h2

theorem foldl_max_mem (ys : List Int) (x : Int) :
    ys.foldl max x = x ∨ ys.foldl max x ∈ ys := by
  induction ys generalizing x with
  | nil => simp
  | cons y ys ih =>
    simp only [List.foldl_cons]
    rcases ih (max x y) with h | h
    · rw [h]
      rcases max_choice x y with hc | hc <;> simp [hc]
    · right
      exact List.mem_cons_of_mem _ h

theorem minList_le {xs : List Int} {a : Int} (h : a ∈ xs) : minList xs ≤ a := by
  match xs with
  | x :: rest =>
    simp only [minList]
    rcases List.mem_cons.mp h with rfl | h2
    · exact foldl_min_le_init rest a
    · exact foldl_min_le_mem rest x a h2

theorem le_maxList {xs : List Int} {a : Int} (h : a ∈ xs) : a ≤ maxList xs := by
  match xs with
  | x :: rest =>
    simp only [maxList]
    rcases List.mem_cons.mp h with rfl | h2
    · exact le_foldl_max_init rest a
    · exact le_foldl_max_mem rest x a h2

theorem minList_mem {xs : List Int} (h : xs ≠ []) : minList xs ∈ xs := by
  match xs with
  | x :: rest =>
    simp only [minList]
    rcases foldl_min_mem rest x with hm | hm
    · simp [hm]
    · exact List.mem_cons_of_mem _ hm

theorem maxList_mem {xs : List Int} (h : xs ≠ []) : maxList xs ∈ xs := by
  match xs with
  | x :: rest =>
    simp only [maxList]
    rcases foldl_max_mem rest x with hm | hm
    · simp [hm]
    · exact List.mem_cons_of_mem _ hm

/-! Lemmas about the deduplication loop. -/

theorem dedupGo_sublist (seen bs : List Box) : (dedupGo seen bs).Sublist bs := by
  induction bs generalizing seen with
  | nil => simp [dedupGo]
  | cons b rest ih =>
    simp only [dedupGo]
    by_cases hk : dedupKey b ∈ seen
    · simp only [if_pos hk]
      exact (ih seen).cons b
    · simp only [if_neg hk]
      exact (ih _).cons₂ b

theorem dedupGo_key_not_seen (seen bs : List Box) :
    ∀ b ∈ dedupGo seen bs, dedupKey b ∉ seen := by
  induction bs generalizing seen with
  | nil => simp [dedupGo]
  | cons b rest ih =>
    simp only [dedupGo]
    by_cases hk : dedupKey b ∈ seen
    · simp only [if_pos hk]
      exact ih seen
    · simp only [if_neg hk]
      intro b' hb'
      rcases List.mem_cons.mp hb' with rfl | h2
      · exact hk
      · intro hmem
        exact ih (dedupKey b :: seen) b' h2 (List.mem_cons_of_mem _ hmem)

theorem dedupGo_keys_nodup (seen bs : List Box) :
    ((dedupGo seen bs).map dedupKey).Nodup := by
  induction bs generalizing seen with
  | nil => simp [dedupGo]
  | cons b rest ih =>
    simp only [dedupGo]
    by_cases hk : dedupKey b ∈ seen
    · simp only [if_pos hk]
      exact ih seen
    · simp only [if_neg hk, List.map_cons, List.nodup_cons]
      refine ⟨?_, ih _⟩
      intro hmem
      obtain ⟨b', hb', hkey⟩ := List.mem_map.mp hmem
      exact dedupGo_key_not_seen _ _ b' hb' (hkey ▸ List.mem_cons_self _ _)

theorem dedupGo_covers (seen bs : List Box) :
    ∀ b ∈ bs, dedupKey b ∈ seen ∨ dedupKey b ∈ (dedupGo seen bs).map dedupKey := by
  induction bs generalizing seen with
  | nil => simp
  | cons b rest ih =>
    intro b' hb'
    simp only [dedupGo]
    by_cases hk : dedupKey b ∈ seen
    · simp only [if_pos hk]
      rcases List.mem_cons.mp hb' with rfl | h2
      · exact Or.inl hk
      · exact ih seen b' h2
    · simp only [if_neg hk, List.map_cons]
      rcases List.mem_cons.mp hb' with rfl | h2
      · exact Or.inr (List.mem_cons_self _ _)
      · rcases ih (dedupKey b :: seen) b' h2 with h3 | h3
        · rcases List.mem_cons.mp h3 with h4 | h4
          · exact Or.inr (h4 ▸ List.mem_cons_self _ _)
          · exact Or.inl h4
        · exact Or.inr (List.mem_cons_of_mem _ h3)

/-! ## Claim C8 -/

/-- **C8.** For every non-empty list of axis-aligned boxes,
`_merge_boxes` returns the tight enclosing rectangle: its left and top
edges are lower bounds on (and attained by) the inputs' left and top
edges, and its right and bottom edges (`x + w`, `y + h`) are upper
bounds on (and attained by) the inputs' right and bottom edges; for the
empty list it returns the degenerate all-zero rectangle. -/
theorem claim_c8_merge_tight_bound (boxes : List Box) (h : boxes ≠ []) :
    (∀ b ∈ boxes,
      (mergeBoxes boxes).1 ≤ b.1 ∧ (mergeBoxes boxes).2.1 ≤ b.2.1 ∧
      b.1 + b.2.2.1 ≤ (mergeBoxes boxes).1 + (mergeBoxes boxes).2.2.1 ∧
      b.2.1 + b.2.2.2 ≤ (mergeBoxes boxes).2.1 + (mergeBoxes boxes).2.2.2) ∧
    (∃ b ∈ boxes, b.1 = (mergeBoxes boxes).1) ∧
    (∃ b ∈ boxes, b.2.1 = (mergeBoxes boxes).2.1) ∧
    (∃ b ∈ boxes, b.1 + b.2.2.1 = (mergeBoxes boxes).1 + (mergeBoxes boxes).2.2.1) ∧
    (∃ b ∈ boxes, b.2.1 + b.2.2.2 = (mergeBoxes boxes).2.1 + (mergeBoxes boxes).2.2.2) ∧
    mergeBoxes [] = ((0 : Int), (0 : Int), (0 : Int), (0 : Int)) := by
  have hx : boxes.map (fun b : Box => b.1) ≠ [] := by
    simpa using h
  have hy : boxes.map (fun b : Box => b.2.1) ≠ [] := by
    simpa using h
  have hxe : boxes.map (fun b : Box => b.1 + b.2.2.1) ≠ [] := by
    simpa using h
  have hye : boxes.map (fun b : Box => b.2.1 + b.2.2.2) ≠ [] := by
    simpa using h
  simp only [mergeBoxes, if_neg h]
  refine ⟨?_, ?_, ?_, ?_, ?_, rfl⟩
  · intro b hb
    have h1 : minList (boxes.map (fun b : Box => b.1)) ≤ b.1 :=
      minList_le (List.mem_map_of_mem (fun b : Box => b.1) hb)
    have h2 : minList (boxes.map (fun b : Box => b.2.1)) ≤ b.2.1 :=
      minList_le (List.mem_map_of_mem (fun b : Box => b.2.1) hb)
    have h3 : b.1 + b.2.2.1 ≤ maxList (boxes.map (fun b : Box => b.1 + b.2.2.1)) :=
      le_maxList (List.mem_map_of_mem (fun b : Box => b.1 + b.2.2.1) hb)
    have h4 : b.2.1 + b.2.2.2 ≤
        maxList (boxes.map (fun b : Box => b.2.1 + b.2.2.2)) :=
      le_maxList (List.mem_map_of_mem (fun b : Box => b.2.1 + b.2.2.2) hb)
    exact ⟨h1, h2, by omega, by omega⟩
  · obtain ⟨b, hb, hbe⟩ := List.mem_map.mp (minList_mem hx)
    exact ⟨b, hb, hbe⟩
  · obtain ⟨b, hb, hbe⟩ := List.mem_map.mp (minList_mem hy)
    exact ⟨b, hb, hbe⟩
  · obtain ⟨b, hb, hbe⟩ := List.mem_map.mp (maxList_mem hxe)
    have hbe' : b.1 + b.2.2.1 = maxList (boxes.map (fun b : Box => b.1 + b.2.2.1)) := hbe
    exact ⟨b, hb, by omega⟩
  · obtain ⟨b, hb, hbe⟩ := List.mem_map.mp (maxList_mem hye)
    have hbe' : b.2.1 + b.2.2.2 =
        maxList (boxes.map (fun b : Box => b.2.1 + b.2.2.2)) := hbe
    exact ⟨b, hb, by omega⟩

/-- Witness for C8 at a concrete two-box list. -/
theorem claim_c8_merge_tight_bound_witness :
    ([((1 : Int), 2, 3, 4), ((5 : Int), 0, 2, 10)] : List Box) ≠ [] ∧
    (∃ b ∈ ([((1 : Int), 2, 3, 4), ((5 : Int), 0, 2, 10)] : List Box),
      b.1 = (mergeBoxes [((1 : Int), 2, 3, 4), ((5 : Int), 0, 2, 10)]).1) :=
  ⟨by decide,
   (claim_c8_merge_tight_bound [((1 : Int), 2, 3, 4), ((5 : Int), 0, 2, 10)]
     (by decide)).2.1⟩

/-! ## Claim C7 -/

/-- **C7 counterexample.** The boxes `(1,0,0,0)` and `(2,0,0,0)` differ
by at most 1 pixel in every coordinate, yet deduplication keeps both:
their keys `(0,0,0,0)` and `(1,0,0,0)` differ because the 1-pixel gap
straddles an even quantization boundary. This refutes the claim that
every pair of entries within 1px of each other collapses to exactly one
representative. -/
theorem claim_c7_counterexample :
    (((2 : Int) - 1).natAbs ≤ 1 ∧ ((0 : Int) - 0).natAbs ≤ 1) ∧
    dedup [((1 : Int), 0, 0, 0), ((2 : Int), 0, 0, 0)] =
      [((1 : Int), 0, 0, 0), ((2 : Int), 0, 0, 0)] ∧
    (dedup [((1 : Int), 0, 0, 0), ((2 : Int), 0, 0, 0)]).length ≠ 1 := by
  decide

/-- **C7 (amended).** Deduplication keeps exactly one representative
per *quantized-key class* (coordinates floor-divided by 2), not per
1-pixel neighbourhood: the result is a subsequence of the input
(first-seen order preserved), its keys are pairwise distinct, and every
input box's key is represented. Two boxes 1px apart collapse only when
their coordinates agree after division by 2. -/
theorem claim_c7_amended_dedup_key_classes (boxes : List Box) :
    (dedup boxes).Sublist boxes ∧
    ((dedup boxes).map dedupKey).Nodup ∧
    (∀ b ∈ boxes, dedupKey b ∈ (dedup boxes).map dedupKey) := by
  refine ⟨dedupGo_sublist [] boxes, dedupGo_keys_nodup [] boxes, ?_⟩
  intro b hb
  rcases dedupGo_covers [] boxes b hb with h | h
  · simp at h
  · exact h

/-- Witness for C7 (amended): `(2,2,2,2)` and `(3,3,3,3)` share the key
`(1,1,1,1)`, and the key of the dropped second box is still represented
in the deduplicated list. -/
theorem claim_c7_amended_dedup_key_classes_witness :
    dedupKey ((3 : Int), 3, 3, 3) ∈
      (dedup [((2 : Int), 2, 2, 2), ((3 : Int), 3, 3, 3)]).map dedupKey :=
  (claim_c7_amended_dedup_key_classes
    [((2 : Int), 2, 2, 2), ((3 : Int), 3, 3, 3)]).2.2 _ (by decide)

/-! ## Claim C10 -/

/-- **C10.** `apply_custom_redactions` draws a directive's rectangle
exactly when its position's `x`, `y`, `width` and `height` are all
strictly positive; a directive with `x = 0` or `y = 0` (or with a
coordinate missing, defaulting to 0) is skipped silently — every pixel
is left unchanged — even when its width and height are positive. -/
theorem claim_c10_custom_redaction_positive_gate (img : Img) (pos : RPos)
    (m : Option String) (rt : String) :
    (pos.x.getD 0 ≤ 0 ∨ pos.y.getD 0 ≤ 0 ∨
        pos.width.getD 0 ≤ 0 ∨ pos.height.getD 0 ≤ 0 →
      ∀ px py, applyCustomRedactions img [⟨pos, m⟩] rt px py = img px py) ∧
    (0 < pos.x.getD 0 → 0 < pos.y.getD 0 →
      0 < pos.width.getD 0 → 0 < pos.height.getD 0 →
      ∀ px py, pos.x.getD 0 ≤ px → px ≤ pos.x.getD 0 + pos.width.getD 0 →
        pos.y.getD 0 ≤ py → py ≤ pos.y.getD 0 + pos.height.getD 0 →
        applyCustomRedactions img [⟨pos, m⟩] rt px py =
          customColor rt (m.getD "select")) := by
  constructor
  · intro hskip px py
    simp only [applyCustomRedactions, List.foldl_cons, List.foldl_nil]
    rw [if_neg (by omega)]
  · intro hx hy hw hh px py h1 h2 h3 h4
    simp only [applyCustomRedactions, List.foldl_cons, List.foldl_nil]
    rw [if_pos ⟨hx, hy, hw, hh⟩]
    simp only [fillRect]
    rw [if_pos ⟨h1, h2, h3, h4⟩]

/-- Witness for C10: a directive with a missing `x` (defaulting to 0)
and positive width/height leaves a pixel inside its would-be rectangle
unchanged. -/
theorem claim_c10_custom_redaction_positive_gate_witness :
    applyCustomRedactions (fun _ _ => ((7 : Int), 7, 7))
      [⟨⟨none, some 5, some 3, some 3⟩, none⟩] "temporary" 1 6 =
      ((7 : Int), 7, 7) :=
  (claim_c10_custom_redaction_positive_gate (fun _ _ => ((7 : Int), 7, 7))
    ⟨none, some 5, some 3, some 3⟩ none "temporary").1 (by decide) 1 6

/-! ## Claim C4 -/

/-- **C4 counterexample.** The spec's matching policy takes the 70%
character-set-overlap threshold relative to the *shorter* string's
character-set size; the code takes it relative to the OCR *field*
text's. For field text `"abcdefgh"` against span text `"cba"` (no
equality, no substring either way) the overlap is all 3 of the shorter
string's distinct characters — over 70% of 3 per the spec — but only 3
of the field's 8, so `enhance_document_fields` leaves the field
unannotated, refuting the claim's "exactly when" at this input. -/
theorem claim_c4_counterexample :
    specMatchPolicy "abcdefgh" "cba" = true ∧
    fieldMatches "abcdefgh" "cba" = false ∧
    enhanceDocumentFields [⟨"abcdefgh", 0⟩]
      [⟨some "cba", some "Name", some 90, none⟩] =
      [⟨⟨"abcdefgh", 0⟩, none, none, none, false⟩] := by
  decide

/-- **C4 (amended).** In `enhance_document_fields`, an OCR field is
annotated with the first matching classifier span's category,
confidence and sensitive flag exactly when the two texts are
case-insensitively equal, one is a substring of the other, or their
lower-cased character sets overlap by more than 70% relative to the
*OCR field text's* character-set size (`fieldMatches`); unmatched
fields pass through unannotated, and no field is dropped. The
"JohnSmith" / "John Smith" scenario is annotated sensitive with the
classifier's category (witness below). -/
theorem claim_c4_amended_matching_policy (extracted : List OcrField)
    (analysis : List ClassifierInfo) (f : OcrField) (hf : f ∈ extracted) :
    enhanceField f analysis ∈ enhanceDocumentFields extracted analysis ∧
    ((enhanceField f analysis).sensitive = true ↔
      ∃ i ∈ analysis, fieldMatches f.text (i.text.getD "") = true) ∧
    (∀ i, analysis.find? (fun j => fieldMatches f.text (j.text.getD "")) =
        some i →
      enhanceField f analysis =
        ⟨f, some (i.category.getD "Unknown"), some (i.confidence.getD 70),
         some (i.reason.getD "Identified as sensitive information"), true⟩) ∧
    ((enhanceField f analysis).sensitive = false →
      enhanceField f analysis = ⟨f, none, none, none, false⟩) ∧
    (enhanceField f analysis).base = f := by
  have hne : extracted ≠ [] := by
    intro hcon
    rw [hcon] at hf
    simp at hf
  refine ⟨?_, ?_, ?_, ?_, ?_⟩
  · rw [enhanceDocumentFields, if_neg hne]
    exact List.mem_map_of_mem _ hf
  · constructor
    · intro hsens
      rcases hfind : analysis.find? (fun j => fieldMatches f.text (j.text.getD ""))
        with - | i
      · rw [enhanceField, hfind] at hsens
        simp at hsens
      · have hp := List.find?_some hfind
        exact ⟨i, List.mem_of_find?_eq_some hfind, hp⟩
    · rintro ⟨i, hi, hmatch⟩
      rcases hfind : analysis.find? (fun j => fieldMatches f.text (j.text.getD ""))
        with - | i'
      · have := List.find?_eq_none.mp hfind i hi
        simp [hmatch] at this
      · rw [enhanceField, hfind]
  · intro i hfind
    rw [enhanceField, hfind]
  · intro hsens
    rcases hfind : analysis.find? (fun j => fieldMatches f.text (j.text.getD ""))
      with - | i
    · rw [enhanceField, hfind]
    · rw [enhanceField, hfind] at hsens
      simp at hsens
  · rcases hfind : analysis.find? (fun j => fieldMatches f.text (j.text.getD ""))
      with - | i <;> rw [enhanceField, hfind]

/-- Witness for C4 (amended): the spec's own scenario. OCR field text
`"JohnSmith"` against classifier span `"John Smith"` matches via the
character-set-overlap branch (8 of the field's 8 distinct characters),
so the field is annotated sensitive with category `"Name"`. -/
theorem claim_c4_amended_matching_policy_witness :
    (enhanceField ⟨"JohnSmith", 0⟩
      [⟨some "John Smith", some "Name", some 95, none⟩]).sensitive = true ∧
    (enhanceField ⟨"JohnSmith", 0⟩
      [⟨some "John Smith", some "Name", some 95, none⟩]).category =
      some "Name" := by
  have h := claim_c4_amended_matching_policy [⟨"JohnSmith", 0⟩]
    [⟨some "John Smith", some "Name", some 95, none⟩] ⟨"JohnSmith", 0⟩
    (by decide)
  have h3 := h.2.2.1 ⟨some "John Smith", some "Name", some 95, none⟩ (by decide)
  rw [h3]
  exact ⟨rfl, rfl⟩

/-! ## Claim C5 -/

/-- The quantization bound behind C5: truncating `frac * dim` to a
whole pixel and dividing by the dimension again recovers the fraction
only up to `1/dim`. -/
theorem scaleDim_roundtrip_bound (hund W : Nat) (hW : 0 < W) :
    |((scaleDim hund W : ℚ)) / (W : ℚ) - (hund : ℚ) / 100| ≤ 1 / (W : ℚ) := by
  have hWq : (0 : ℚ) < (W : ℚ) := by exact_mod_cast hW
  have hdm := Nat.div_add_mod (hund * W) 100
  have hmod : hund * W % 100 < 100 := Nat.mod_lt _ (by norm_num)
  have hcast : (100 : ℚ) * ((hund * W / 100 : Nat) : ℚ) +
      ((hund * W % 100 : Nat) : ℚ) = (hund : ℚ) * (W : ℚ) := by
    exact_mod_cast hdm
  have hW0 : (W : ℚ) ≠ 0 := ne_of_gt hWq
  have hnum : ((hund * W / 100 : Nat) : ℚ) * 100 - (W : ℚ) * (hund : ℚ) =
      -((hund * W % 100 : Nat) : ℚ) := by
    linarith [hcast]
  have key : ((scaleDim hund W : ℚ)) / (W : ℚ) - (hund : ℚ) / 100 =
      -(((hund * W % 100 : Nat) : ℚ) / (100 * (W : ℚ))) := by
    rw [scaleDim]
    rw [div_sub_div _ _ hW0 (by norm_num : (100 : ℚ) ≠ 0), hnum, neg_div]
    rw [mul_comm (W : ℚ) 100]
  rw [key, abs_neg, abs_of_nonneg (by positivity)]
  rw [div_le_div_iff₀ (by positivity) hWq]
  have hr : ((hund * W % 100 : Nat) : ℚ) ≤ 100 := by
    exact_mod_cast le_of_lt hmod
  nlinarith [hWq]

/-- **C5 counterexample.** The claim asserts the scale-then-divide
round trip reproduces the template fractions within floating-point
tolerance for *all* positive dimensions. At `W = H = 10`, the aadhaar
template's `name` x-fraction `0.12` scales to pixel `int(1.2) = 1`;
dividing by 10 yields `0.1`, off by `0.02` — far beyond any
floating-point tolerance (it even exceeds `10⁻⁶`). The `int()`
truncation to whole pixels, not rounding error, is the cause. -/
theorem claim_c5_counterexample :
    TEMPLATES.lookup "aadhaar" = some aadhaarTemplate ∧
    aadhaarTemplate.lookup "name" = some ⟨12, 22, 60, 8, "Name"⟩ ∧
    scaleDim 12 10 = 1 ∧
    |((scaleDim 12 10 : ℚ)) / 10 - (12 : ℚ) / 100| = 1 / 50 ∧
    ¬(|((scaleDim 12 10 : ℚ)) / 10 - (12 : ℚ) / 100| ≤ 1 / 1000000) := by
  refine ⟨rfl, rfl, rfl, ?_, ?_⟩
  · show |((1 : ℚ)) / 10 - (12 : ℚ) / 100| = 1 / 50
    rw [abs_of_nonpos (by norm_num)]
    norm_num
  · show ¬(|((1 : ℚ)) / 10 - (12 : ℚ) / 100| ≤ 1 / 1000000)
    rw [abs_of_nonpos (by norm_num)]
    norm_num

/-- **C5 (amended).** For every template field of every document type
and all positive image dimensions `W`, `H`: scaling the fractional
rectangle the way `redact_image` does (truncating `frac * dim` to a
whole pixel) and dividing by the dimensions again reproduces each
original fraction only up to the pixel-quantization bound — within
`1/W` for `x` and `w`, within `1/H` for `y` and `h` — not within
floating-point tolerance. -/
theorem claim_c5_amended_roundtrip_quantization (doc fname : String)
    (tmpl : List (String × TField)) (e : TField)
    (_h1 : TEMPLATES.lookup doc = some tmpl) (_h2 : tmpl.lookup fname = some e)
    (W H : Nat) (hW : 0 < W) (hH : 0 < H) :
    |((scaleDim e.x W : ℚ)) / (W : ℚ) - (e.x : ℚ) / 100| ≤ 1 / (W : ℚ) ∧
    |((scaleDim e.w W : ℚ)) / (W : ℚ) - (e.w : ℚ) / 100| ≤ 1 / (W : ℚ) ∧
    |((scaleDim e.y H : ℚ)) / (H : ℚ) - (e.y : ℚ) / 100| ≤ 1 / (H : ℚ) ∧
    |((scaleDim e.h H : ℚ)) / (H : ℚ) - (e.h : ℚ) / 100| ≤ 1 / (H : ℚ) :=
  ⟨scaleDim_roundtrip_bound e.x W hW, scaleDim_roundtrip_bound e.w W hW,
   scaleDim_roundtrip_bound e.y H hH, scaleDim_roundtrip_bound e.h H hH⟩

/-- Witness for C5 (amended) at the aadhaar `name` entry and
`W = H = 10`. -/
theorem claim_c5_amended_roundtrip_quantization_witness :
    |((scaleDim 12 10 : ℚ)) / 10 - (12 : ℚ) / 100| ≤ 1 / 10 :=
  (claim_c5_amended_roundtrip_quantization "aadhaar" "name" aadhaarTemplate
    ⟨12, 22, 60, 8, "Name"⟩ rfl rfl 10 10 (by decide) (by decide)).1

/-! ## Claim C9 -/

/-- **C9.** `analyze_document_text` never propagates a hard failure:
whenever the API key is missing (or empty), the `curl` call fails, the
response body is unparseable, the parsed response lacks the expected
candidate/content/parts shape, or the extracted payload is unparseable,
it returns the regex-only analysis of the input text; and in every case
its result is either that fallback or a fully parsed classifier
payload. -/
theorem claim_c9_analyze_never_fails (env : GeminiEnv) (text : String) :
    ((env.apiKey.getD "") = "" →
      analyzeDocumentText env text = env.regexAnalyze text) ∧
    (∀ e, env.curlOutcome = Except.error e →
      analyzeDocumentText env text = env.regexAnalyze text) ∧
    (∀ out, env.curlOutcome = Except.ok out → env.jsonParse out = none →
      analyzeDocumentText env text = env.regexAnalyze text) ∧
    (∀ out rj, env.curlOutcome = Except.ok out → env.jsonParse out = some rj →
      extractResponseText rj = none →
      analyzeDocumentText env text = env.regexAnalyze text) ∧
    (∀ out rj rt, env.curlOutcome = Except.ok out →
      env.jsonParse out = some rj → extractResponseText rj = some rt →
      env.jsonParse (strTrim ((firstBracketSlice rt).getD rt)) = none →
      analyzeDocumentText env text = env.regexAnalyze text) ∧
    (analyzeDocumentText env text = env.regexAnalyze text ∨
      ∃ out rj rt fields, env.curlOutcome = Except.ok out ∧
        env.jsonParse out = some rj ∧ extractResponseText rj = some rt ∧
        env.jsonParse (strTrim ((firstBracketSlice rt).getD rt)) = some fields ∧
        analyzeDocumentText env text = fields) := by
  refine ⟨?_, ?_, ?_, ?_, ?_, ?_⟩
  · intro hkey
    simp only [analyzeDocumentText, if_pos hkey]
  · intro e hc
    by_cases hkey : (env.apiKey.getD "") = ""
    · simp only [analyzeDocumentText, if_pos hkey]
    · simp only [analyzeDocumentText, if_neg hkey, hc]
  · intro out hc hj
    by_cases hkey : (env.apiKey.getD "") = ""
    · simp only [analyzeDocumentText, if_pos hkey]
    · simp only [analyzeDocumentText, if_neg hkey, hc, hj]
  · intro out rj hc hj hext
    by_cases hkey : (env.apiKey.getD "") = ""
    · simp only [analyzeDocumentText, if_pos hkey]
    · simp only [analyzeDocumentText, if_neg hkey, hc, hj, hext]
  · intro out rj rt hc hj hext hj2
    by_cases hkey : (env.apiKey.getD "") = ""
    · simp only [analyzeDocumentText, if_pos hkey]
    · simp only [analyzeDocumentText, if_neg hkey, hc, hj, hext, hj2]
  · by_cases hkey : (env.apiKey.getD "") = ""
    · exact Or.inl (by simp only [analyzeDocumentText, if_pos hkey])
    · rcases hc : env.curlOutcome with e | out
      · exact Or.inl (by simp only [analyzeDocumentText, if_neg hkey, hc])
      · rcases hj : env.jsonParse out with - | rj
        · exact Or.inl (by simp only [analyzeDocumentText, if_neg hkey, hc, hj])
        · rcases hext : extractResponseText rj with - | rt
          · exact Or.inl
              (by simp only [analyzeDocumentText, if_neg hkey, hc, hj, hext])
          · rcases hj2 : env.jsonParse (strTrim ((firstBracketSlice rt).getD rt))
              with - | fields
            · exact Or.inl (by
                simp only [analyzeDocumentText, if_neg hkey, hc, hj, hext, hj2])
            · exact Or.inr ⟨out, rj, rt, fields, rfl, hj, hext, hj2, by
                simp only [analyzeDocumentText, if_neg hkey, hc, hj, hext, hj2]⟩

/-- Witness for C9: with no API key, a failing `curl`, and a parser
that always fails, the result is exactly the regex analyzer's output. -/
theorem claim_c9_analyze_never_fails_witness :
    analyzeDocumentText
      ⟨none, Except.error "curl: (6) could not resolve host",
       fun _ => none, fun _ => JVal.jarr []⟩ "some text" = JVal.jarr [] :=
  (claim_c9_analyze_never_fails
    ⟨none, Except.error "curl: (6) could not resolve host",
     fun _ => none, fun _ => JVal.jarr []⟩ "some text").1 rfl

/-! ## Orchestrator lemmas (shared by C1, C2, C3, C6) -/

theorem reqFields_aadhaar_mem (docType : String) (perm temp : List String)
    (hdoc : strLower docType = "aadhar" ∨ strLower docType = "aadhaar") :
    "aadhaar_number" ∈ reqFields docType perm temp := by
  by_cases hmem : "aadhaar_number" ∈ ((perm ++ temp).map strLower).eraseDups
  · simp only [reqFields, if_pos hdoc, if_pos hmem]
    exact hmem
  · simp only [reqFields, if_pos hdoc, if_neg hmem]
    exact List.mem_append_right _ (List.mem_singleton_self _)

theorem detectEntities_error_of_mem (env : ReEnv) (data : OcrData)
    (req : List String) (lang : String) (hmem : "aadhaar_number" ∈ req) :
    detectEntitiesFromOcr env data req lang = Except.error unboundLocalMsg := by
  simp only [detectEntitiesFromOcr, if_pos hmem]

theorem detectEntities_ok_inv (env : ReEnv) (data : OcrData)
    (req : List String) (lang : String) (bbf : List (String × List Box))
    (h : detectEntitiesFromOcr env data req lang = Except.ok bbf) :
    "aadhaar_number" ∉ req ∧
    bbf = req.map (fun f => (f, dedup (detectHitsFor env data lang f))) := by
  by_cases hmem : "aadhaar_number" ∈ req
  · rw [detectEntities_error_of_mem env data req lang hmem] at h
    exact absurd h (by simp)
  · refine ⟨hmem, ?_⟩
    simp only [detectEntitiesFromOcr, if_neg hmem] at h
    injection h with h'
    exact h'.symm

theorem redactImage_ok_inv (env : ReEnv) (data : OcrData) (W H : Nat)
    (docType : String) (perm temp : List String) (lang : String)
    (acts : List DrawAction) (fr : List String)
    (h : redactImage env data W H docType perm temp lang = Except.ok (acts, fr)) :
    ∃ bbf,
      detectEntitiesFromOcr env data (reqFields docType perm temp) lang =
        Except.ok bbf ∧
      fr = fieldsRedactedOf bbf ∧
      acts = ocrActionsOf perm bbf ++
        templateActionsOf (docTypeNormalized docType)
          (reqFields docType perm temp) (fieldsRedactedOf bbf) perm W H ++
        fallbackActionsOf (docTypeNormalized docType)
          (reqFields docType perm temp) (fieldsRedactedOf bbf) perm W H := by
  rcases hdet : detectEntitiesFromOcr env data (reqFields docType perm temp) lang
    with e | bbf
  · simp only [redactImage, hdet] at h
    exact absurd h (by simp)
  · simp only [redactImage, hdet, Except.ok.injEq, Prod.mk.injEq] at h
    exact ⟨bbf, rfl, h.2.symm, h.1.symm⟩

theorem mem_ocrActionsOf {perm : List String}
    {bbf : List (String × List Box)} {a : DrawAction} :
    a ∈ ocrActionsOf perm bbf ↔
      ∃ p ∈ bbf, p.2 ≠ [] ∧
        a = ⟨p.1, p.2, redactionStyle p.1 perm, "ocr"⟩ := by
  simp only [ocrActionsOf, List.mem_filterMap]
  constructor
  · rintro ⟨p, hp, hfa⟩
    by_cases hne : p.2 ≠ []
    · rw [if_pos hne] at hfa
      injection hfa with h'
      exact ⟨p, hp, hne, h'.symm⟩
    · rw [if_neg hne] at hfa
      exact absurd hfa (by simp)
  · rintro ⟨p, hp, hne, rfl⟩
    exact ⟨p, hp, by rw [if_pos hne]⟩

theorem mem_templateActionsOf {norm : String} {req sat perm : List String}
    {W H : Nat} {a : DrawAction} :
    a ∈ templateActionsOf norm req sat perm W H ↔
      ∃ tf, TEMPLATES.lookup norm = some tf ∧
        ∃ f ∈ req, ∃ e, tf.lookup f = some e ∧ f ∉ sat ∧
          a = ⟨f,
            [((scaleDim e.x W : Int), (scaleDim e.y H : Int),
              (scaleDim e.w W : Int), (scaleDim e.h H : Int))],
            redactionStyle f perm, "template"⟩ := by
  rcases hl : TEMPLATES.lookup norm with - | tf
  · simp [templateActionsOf, hl]
  · simp only [templateActionsOf, hl, List.mem_filterMap]
    constructor
    · rintro ⟨f, hf, hfa⟩
      rcases he : tf.lookup f with - | e
      · rw [he] at hfa
        simp at hfa
      · rw [he] at hfa
        simp only at hfa
        by_cases hsat : f ∈ sat
        · rw [if_pos hsat] at hfa
          exact absurd hfa (by simp)
        · rw [if_neg hsat] at hfa
          injection hfa with h'
          exact ⟨tf, rfl, f, hf, e, he, hsat, h'.symm⟩
    · rintro ⟨tf', htf', f, hf, e, he, hsat, rfl⟩
      injection htf' with h'
      subst h'
      refine ⟨f, hf, ?_⟩
      rw [he]
      simp only
      rw [if_neg hsat]

theorem mem_fallbackActionsOf {norm : String} {req sat perm : List String}
    {W H : Nat} {a : DrawAction}
    (h : a ∈ fallbackActionsOf norm req sat perm W H) :
    norm = "aadhaar" ∧ "aadhaar_number" ∈ req ∧ "aadhaar_number" ∉ sat ∧
      a = ⟨"aadhaar_number",
        [((scaleDim 10 W : Int), (scaleDim 34 H : Int),
          (scaleDim 80 W : Int), (scaleDim 8 H : Int))],
        redactionStyle "aadhaar_number" perm, "fallback"⟩ := by
  rw [fallbackActionsOf] at h
  by_cases hc : norm = "aadhaar" ∧ "aadhaar_number" ∈ req ∧
      "aadhaar_number" ∉ sat
  · rw [if_pos hc] at h
    rw [List.mem_singleton] at h
    exact ⟨hc.1, hc.2.1, hc.2.2, h⟩
  · rw [if_neg hc] at h
    exact absurd h (by simp)

theorem fallbackActionsOf_eq_nil_of_not_req {norm : String}
    {req sat perm : List String} {W H : Nat}
    (h : "aadhaar_number" ∉ req) :
    fallbackActionsOf norm req sat perm W H = [] := by
  rw [fallbackActionsOf, if_neg]
  rintro ⟨-, hmem, -⟩
  exact h hmem

theorem mem_fieldsRedactedOf {bbf : List (String × List Box)} {f : String} :
    f ∈ fieldsRedactedOf bbf ↔ ∃ p ∈ bbf, p.2 ≠ [] ∧ p.1 = f := by
  simp only [fieldsRedactedOf, List.mem_map, List.mem_filter,
    decide_eq_true_eq]
  constructor
  · rintro ⟨p, ⟨hp, hne⟩, hf⟩
    exact ⟨p, hp, hne, hf⟩
  · rintro ⟨p, hp, hne, hf⟩
    exact ⟨p, ⟨hp, hne⟩, hf⟩

/-! ## Claim C1 -/

/-- **C1 (code bug).** For every call to `redact_image` whose document
type lower-cases to `"aadhar"` or `"aadhaar"`, the requested set
contains `"aadhaar_number"`, so `detect_entities_from_ocr` reads the
local variable `lowered` (line 249) before its assignment (line 289)
and the whole call raises `UnboundLocalError` — it never reaches the
Tier-3 fallback (lines 423-431) and emits no rectangle at all, against
the claimed guarantee of exactly one in-bounds fallback rectangle and
error-free completion. -/
theorem claim_c1_aadhaar_request_raises (env : ReEnv) (data : OcrData)
    (W H : Nat) (docType : String) (perm temp : List String) (lang : String)
    (hdoc : strLower docType = "aadhar" ∨ strLower docType = "aadhaar") :
    redactImage env data W H docType perm temp lang =
      Except.error unboundLocalMsg := by
  have hmem := reqFields_aadhaar_mem docType perm temp hdoc
  have hdet := detectEntities_error_of_mem env data
    (reqFields docType perm temp) lang hmem
  simp only [redactImage, hdet]

/-- Witness for C1 at a concrete aadhaar request. -/
theorem claim_c1_aadhaar_request_raises_witness :
    redactImage ⟨fun _ => [], fun _ => [], fun _ => []⟩
      ⟨[], [], [], [], [], []⟩ 100 100 "aadhaar" [] [] "eng" =
      Except.error unboundLocalMsg :=
  claim_c1_aadhaar_request_raises _ _ _ _ _ _ _ _ (Or.inr rfl)

/-! ## Claim C2 -/

/-- Every draw action of a completing `redact_image` call carries the
style chosen by `"black" if field in permanent_fields else "yellow"`
for its own field. -/
theorem redactImage_ok_action_style (env : ReEnv) (data : OcrData)
    (W H : Nat) (docType : String) (perm temp : List String) (lang : String)
    (acts : List DrawAction) (fr : List String)
    (h : redactImage env data W H docType perm temp lang = Except.ok (acts, fr)) :
    ∀ a ∈ acts, a.style = redactionStyle a.field perm := by
  obtain ⟨bbf, hdet, hfr, hacts⟩ :=
    redactImage_ok_inv env data W H docType perm temp lang acts fr h
  subst hacts
  intro a ha
  rcases List.mem_append.mp ha with hab | hc
  · rcases List.mem_append.mp hab with hA | hB
    · obtain ⟨p, hp, hne, rfl⟩ := mem_ocrActionsOf.mp hA
      rfl
    · obtain ⟨tf, htf, f, hf, e, he, hsat, rfl⟩ := mem_templateActionsOf.mp hB
      rfl
  · obtain ⟨-, -, -, rfl⟩ := mem_fallbackActionsOf hc
    rfl

/-- **C2 counterexample.** A concrete completing run (document type
`"pan"`, requested permanent field `"pan_number"`, OCR finding
nothing): the template tier applies the `pan_number` rectangle, yet the
`fields_redacted` set stays empty — the template tier never marks the
field SATISFIED (the source has no `fields_redacted.add` in the
template loop, lines 409-421), refuting the claim's "the document
type's template entry, which marks the field SATISFIED". -/
theorem claim_c2_counterexample :
    redactImage ⟨fun _ => [], fun _ => [], fun _ => []⟩
      ⟨[], [], [], [], [], []⟩ 100 100 "pan" ["pan_number"] [] "eng" =
      Except.ok
        ([⟨"pan_number", [((8 : Int), 34, 50, 9)], "black", "template"⟩],
         []) ∧
    "pan_number" ∉ ([] : List String) :=
  ⟨rfl, by simp⟩

/-- **C2 (amended).** For every *completing* `redact_image` call, the
applied rectangles come from exactly one tier per field-kind: an
OCR-site action exists for a field iff its deduplicated box list is
non-empty (and then the field is in `fields_redacted`), a template-site
action exists for a requested field exactly when it has a template
entry and is not in `fields_redacted`, and never both for one field.
The template tier does **not** mark the field in `fields_redacted`,
and the Tier-3 fallback is never applied in a completing call (any
request containing `aadhaar_number` raises before drawing, so every
action's site is `"ocr"` or `"template"`). -/
theorem claim_c2_amended_tier_exclusivity (env : ReEnv) (data : OcrData)
    (W H : Nat) (docType : String) (perm temp : List String) (lang : String)
    (acts : List DrawAction) (fr : List String)
    (h : redactImage env data W H docType perm temp lang = Except.ok (acts, fr)) :
    (∀ a ∈ acts, a.site = "ocr" ∨ a.site = "template") ∧
    (∀ f, ¬((∃ a ∈ acts, a.field = f ∧ a.site = "ocr") ∧
        (∃ a ∈ acts, a.field = f ∧ a.site = "template"))) ∧
    (∀ a ∈ acts, a.site = "ocr" → a.field ∈ fr ∧ a.boxes ≠ []) ∧
    (∀ a ∈ acts, a.site = "template" → a.field ∉ fr) ∧
    (∀ f ∈ fr, ∃ a ∈ acts, a.field = f ∧ a.site = "ocr") ∧
    (∀ f tf e, f ∈ reqFields docType perm temp →
      TEMPLATES.lookup (docTypeNormalized docType) = some tf →
      tf.lookup f = some e → f ∉ fr →
      ∃ a ∈ acts, a.field = f ∧ a.site = "template") := by
  obtain ⟨bbf, hdet, hfr, hacts⟩ :=
    redactImage_ok_inv env data W H docType perm temp lang acts fr h
  have hnreq := (detectEntities_ok_inv env data _ lang bbf hdet).1
  have hfb := @fallbackActionsOf_eq_nil_of_not_req
    (docTypeNormalized docType) (reqFields docType perm temp)
    (fieldsRedactedOf bbf) perm W H hnreq
  rw [hfb, List.append_nil] at hacts
  subst hacts
  subst hfr
  refine ⟨?_, ?_, ?_, ?_, ?_, ?_⟩
  · intro a ha
    rcases List.mem_append.mp ha with hA | hB
    · obtain ⟨p, hp, hne, rfl⟩ := mem_ocrActionsOf.mp hA
      exact Or.inl rfl
    · obtain ⟨tf, htf, f, hf, e, he, hsat, rfl⟩ := mem_templateActionsOf.mp hB
      exact Or.inr rfl
  · rintro f ⟨⟨a1, ha1, hf1, hs1⟩, ⟨a2, ha2, hf2, hs2⟩⟩
    have ha1A : a1 ∈ ocrActionsOf perm bbf := by
      rcases List.mem_append.mp ha1 with h' | h'
      · exact h'
      · obtain ⟨tf, htf, f', hf', e, he, hsat, rfl⟩ :=
          mem_templateActionsOf.mp h'
        simp at hs1
    obtain ⟨p, hp, hne, rfl⟩ := mem_ocrActionsOf.mp ha1A
    have hfrmem : f ∈ fieldsRedactedOf bbf :=
      mem_fieldsRedactedOf.mpr ⟨p, hp, hne, hf1⟩
    have ha2B : a2 ∈ templateActionsOf (docTypeNormalized docType)
        (reqFields docType perm temp) (fieldsRedactedOf bbf) perm W H := by
      rcases List.mem_append.mp ha2 with h' | h'
      · obtain ⟨p', hp', hne', rfl⟩ := mem_ocrActionsOf.mp h'
        simp at hs2
      · exact h'
    obtain ⟨tf, htf, f', hf', e, he, hsat, rfl⟩ :=
      mem_templateActionsOf.mp ha2B
    have hff : f' = f := hf2
    subst hff
    exact hsat hfrmem
  · intro a ha hs
    rcases List.mem_append.mp ha with hA | hB
    · obtain ⟨p, hp, hne, rfl⟩ := mem_ocrActionsOf.mp hA
      exact ⟨mem_fieldsRedactedOf.mpr ⟨p, hp, hne, rfl⟩, hne⟩
    · obtain ⟨tf, htf, f, hf, e, he, hsat, rfl⟩ := mem_templateActionsOf.mp hB
      simp at hs
  · intro a ha hs
    rcases List.mem_append.mp ha with hA | hB
    · obtain ⟨p, hp, hne, rfl⟩ := mem_ocrActionsOf.mp hA
      simp at hs
    · obtain ⟨tf, htf, f, hf, e, he, hsat, rfl⟩ := mem_templateActionsOf.mp hB
      exact hsat
  · intro f hf
    obtain ⟨p, hp, hne, hpf⟩ := mem_fieldsRedactedOf.mp hf
    exact ⟨⟨p.1, p.2, redactionStyle p.1 perm, "ocr"⟩,
      List.mem_append_left _ (mem_ocrActionsOf.mpr ⟨p, hp, hne, rfl⟩),
      hpf, rfl⟩
  · intro f tf e hfreq htf he hfr'
    exact ⟨⟨f,
        [((scaleDim e.x W : Int), (scaleDim e.y H : Int),
          (scaleDim e.w W : Int), (scaleDim e.h H : Int))],
        redactionStyle f perm, "template"⟩,
      List.mem_append_right _
        (mem_templateActionsOf.mpr ⟨tf, htf, f, hfreq, e, he, hfr', rfl⟩),
      rfl, rfl⟩

/-- Witness for C2 (amended) at the concrete `"pan"` run of the
counterexample: the unsatisfied requested field with a template entry
receives a template-site action. -/
theorem claim_c2_amended_tier_exclusivity_witness :
    ∃ a ∈ [(⟨"pan_number", [((8 : Int), 34, 50, 9)], "black",
        "template"⟩ : DrawAction)],
      a.field = "pan_number" ∧ a.site = "template" :=
  (claim_c2_amended_tier_exclusivity ⟨fun _ => [], fun _ => [], fun _ => []⟩
    ⟨[], [], [], [], [], []⟩ 100 100 "pan" ["pan_number"] [] "eng"
    [⟨"pan_number", [((8 : Int), 34, 50, 9)], "black", "template"⟩] []
    rfl).2.2.2.2.2 "pan_number"
    [("pan_number", ⟨8, 34, 50, 9, "PAN"⟩),
     ("name", ⟨8, 20, 70, 9, "Name"⟩),
     ("dob", ⟨8, 26, 50, 8, "Date of Birth"⟩)]
    ⟨8, 34, 50, 9, "PAN"⟩ (by decide) rfl rfl (by simp)

/-! ## Claim C3 -/

/-- **C3.** For every call whose document type lower-cases to
`"aadhar"` or `"aadhaar"`, the field `"aadhaar_number"` is added to the
requested field set even when the caller listed it in neither
`permanent_fields` nor `temporary_fields`; and since every drawing site
chooses `"black" if field in permanent_fields else "yellow"`, any
rectangle produced for a field absent from `permanent_fields` — in
particular such a forced `aadhaar_number` — is rendered with the
temporary highlight style. (No rectangle is ever actually produced for
`aadhaar_number`, because such calls raise — see C1 — but the style
choice is the stated one at every site.) -/
theorem claim_c3_forced_field_temporary_style (docType : String)
    (perm temp : List String)
    (hdoc : strLower docType = "aadhar" ∨ strLower docType = "aadhaar") :
    "aadhaar_number" ∈ reqFields docType perm temp ∧
    ("aadhaar_number" ∉ perm →
      redactionStyle "aadhaar_number" perm = "yellow") ∧
    (∀ env data W H (dt : String) (temp' : List String) lang acts fr,
      redactImage env data W H dt perm temp' lang = Except.ok (acts, fr) →
      ∀ a ∈ acts, a.field ∉ perm → a.style = "yellow") := by
  refine ⟨reqFields_aadhaar_mem docType perm temp hdoc, ?_, ?_⟩
  · intro hnp
    rw [redactionStyle, if_neg hnp]
  · intro env data W H dt temp' lang acts fr h a ha hnp
    have hstyle :=
      redactImage_ok_action_style env data W H dt perm temp' lang acts fr h a ha
    rw [hstyle, redactionStyle, if_neg hnp]

/-- Witness for C3: the alternate spelling with `aadhaar_number` listed
in neither field list. -/
theorem claim_c3_forced_field_temporary_style_witness :
    "aadhaar_number" ∈ reqFields "aadhar" ["name"] [] ∧
    redactionStyle "aadhaar_number" ["name"] = "yellow" :=
  ⟨(claim_c3_forced_field_temporary_style "aadhar" ["name"] [] (Or.inl rfl)).1,
   (claim_c3_forced_field_temporary_style "aadhar" ["name"] []
     (Or.inl rfl)).2.1 (by decide)⟩

/-! ## Claim C6 -/

theorem wordsAfterKeyword_spec (data : OcrData) (i m : Nat) :
    (wordsAfterKeyword data i m).2.length ≤ m ∧
    (∀ j ∈ (wordsAfterKeyword data i m).2,
      i + 1 ≤ j ∧ data.lineAt j = data.lineAt i ∧
        strTrim (data.wordAt j) ≠ "") ∧
    (∃ rest, (List.range data.text.length).filter
        (fun j => decide (i + 1 ≤ j) && (data.lineAt j == data.lineAt i) &&
          !(strTrim (data.wordAt j) == "")) =
      (wordsAfterKeyword data i m).2 ++ rest) := by
  refine ⟨?_, ?_, ?_⟩
  · simp only [wordsAfterKeyword]
    rw [List.length_take]
    exact min_le_left _ _
  · intro j hj
    have hj2 := List.take_subset m _ hj
    rw [List.mem_filter] at hj2
    obtain ⟨-, hcond⟩ := hj2
    simp only [Bool.and_eq_true, decide_eq_true_eq, beq_iff_eq,
      Bool.not_eq_true', beq_eq_false_iff_ne] at hcond
    exact ⟨hcond.1.1, hcond.1.2, hcond.2⟩
  · exact ⟨((List.range data.text.length).filter
      (fun j => decide (i + 1 ≤ j) && (data.lineAt j == data.lineAt i) &&
        !(strTrim (data.wordAt j) == ""))).drop m,
      (List.take_append_drop m _).symm⟩

theorem mem_keywordHits (data : OcrData) (kws : List String) (m : Nat)
    (b : Box) (hb : b ∈ keywordHits data kws m) :
    ∃ i, i < data.text.length ∧
      kws.any (fun kw =>
        strContains (strLower (strTrim (data.wordAt i))) kw) = true ∧
      (wordsAfterKeyword data i m).2 ≠ [] ∧
      isNonSensitive (strLower (String.intercalate " "
        ((wordsAfterKeyword data i m).2.map (fun j => data.wordAt j)))) =
        false ∧
      b = mergeBoxes
        ((wordsAfterKeyword data i m).2.map (fun j => data.boxAt j)) := by
  simp only [keywordHits, List.mem_filterMap, List.mem_range] at hb
  obtain ⟨i, hi, heq⟩ := hb
  by_cases hkw : kws.any (fun kw =>
      strContains (strLower (strTrim (data.wordAt i))) kw) = true
  · rw [if_pos hkw] at heq
    by_cases hidx : (wordsAfterKeyword data i m).2 = []
    · rw [if_pos hidx] at heq
      exact absurd heq (by simp)
    · rw [if_neg hidx] at heq
      by_cases hns : isNonSensitive (strLower (String.intercalate " "
          ((wordsAfterKeyword data i m).2.map (fun j => data.wordAt j)))) = true
      · rw [if_pos hns] at heq
        exact absurd heq (by simp)
      · rw [if_neg hns] at heq
        injection heq with h'
        exact ⟨i, hi, hkw, hidx, Bool.eq_false_iff.mpr hns, h'.symm⟩
  · rw [if_neg hkw] at heq
    exact absurd heq (by simp)

/-- The concrete token stream of the C6 counterexample and witness: the
keyword token `"regno"` followed by three non-empty tokens on the same
OCR line. -/
def c6Data : OcrData :=
  ⟨["regno", "12", "34", "56"], [10, 20, 30, 40], [5, 5, 5, 5],
   [5, 5, 5, 5], [7, 7, 7, 7], [0, 0, 0, 0]⟩

/-- **C6 counterexample.** The claim says the register-number candidate
is bounded by a maximum of 4 tokens, but the source passes
`max_words=2` for `register_number` (`redact_ai.py` line 319). With
three non-empty tokens following the keyword on the same line, the
recorded hit covers only the first two (`merged box (20,5,15,7)`), not
the three the claimed bound of 4 would admit (`(20,5,25,7)`). -/
theorem claim_c6_counterexample :
    detectEntitiesFromOcr ⟨fun _ => [], fun _ => [], fun _ => []⟩ c6Data
      ["register_number"] "eng" =
      Except.ok [("register_number", [((20 : Int), 5, 15, 7)])] ∧
    (wordsAfterKeyword c6Data 0 4).2 = [1, 2, 3] ∧
    mergeBoxes ((([1, 2, 3] : List Nat)).map (fun j => c6Data.boxAt j)) =
      ((20 : Int), 5, 25, 7) ∧
    ((20 : Int), (5 : Int), (15 : Int), (7 : Int)) ≠
      ((20 : Int), (5 : Int), (25 : Int), (7 : Int)) := by
  refine ⟨rfl, rfl, rfl, by decide⟩

/-- **C6 (amended).** For every keyword hit, the candidate value
consists of the following non-empty tokens on the same OCR line,
bounded by a per-field-kind maximum count of **4** tokens for the name
field, **2** tokens for the register_number field, and **10** (the
higher bound) for the address field; the detector wires exactly these
bounds to the three keyword passes. -/
theorem claim_c6_amended_keyword_candidate_bounds (data : OcrData)
    (lang : String) :
    (∀ b ∈ keywordHits data (langConfigFor lang).nameKeywords 4,
      ∃ i, i < data.text.length ∧
        (langConfigFor lang).nameKeywords.any (fun kw =>
          strContains (strLower (strTrim (data.wordAt i))) kw) = true ∧
        (wordsAfterKeyword data i 4).2 ≠ [] ∧
        (wordsAfterKeyword data i 4).2.length ≤ 4 ∧
        (∀ j ∈ (wordsAfterKeyword data i 4).2,
          i + 1 ≤ j ∧ data.lineAt j = data.lineAt i ∧
            strTrim (data.wordAt j) ≠ "") ∧
        b = mergeBoxes
          ((wordsAfterKeyword data i 4).2.map (fun j => data.boxAt j))) ∧
    (∀ b ∈ keywordHits data (langConfigFor lang).registerKeywords 2,
      ∃ i, i < data.text.length ∧
        (langConfigFor lang).registerKeywords.any (fun kw =>
          strContains (strLower (strTrim (data.wordAt i))) kw) = true ∧
        (wordsAfterKeyword data i 2).2 ≠ [] ∧
        (wordsAfterKeyword data i 2).2.length ≤ 2 ∧
        (∀ j ∈ (wordsAfterKeyword data i 2).2,
          i + 1 ≤ j ∧ data.lineAt j = data.lineAt i ∧
            strTrim (data.wordAt j) ≠ "") ∧
        b = mergeBoxes
          ((wordsAfterKeyword data i 2).2.map (fun j => data.boxAt j))) ∧
    (∀ b ∈ keywordHits data (langConfigFor lang).addressKeywords 10,
      ∃ i, i < data.text.length ∧
        (langConfigFor lang).addressKeywords.any (fun kw =>
          strContains (strLower (strTrim (data.wordAt i))) kw) = true ∧
        (wordsAfterKeyword data i 10).2 ≠ [] ∧
        (wordsAfterKeyword data i 10).2.length ≤ 10 ∧
        (∀ j ∈ (wordsAfterKeyword data i 10).2,
          i + 1 ≤ j ∧ data.lineAt j = data.lineAt i ∧
            strTrim (data.wordAt j) ≠ "") ∧
        b = mergeBoxes
          ((wordsAfterKeyword data i 10).2.map (fun j => data.boxAt j))) ∧
    (∀ env : ReEnv,
      detectHitsFor env data lang "name" =
        keywordHits data (langConfigFor lang).nameKeywords 4 ∧
      detectHitsFor env data lang "register_number" =
        keywordHits data (langConfigFor lang).registerKeywords 2 ∧
      detectHitsFor env data lang "address" =
        keywordHits data (langConfigFor lang).addressKeywords 10) := by
  refine ⟨?_, ?_, ?_, fun env => ⟨rfl, rfl, rfl⟩⟩
  · intro b hb
    obtain ⟨i, hi, hkw, hne, -, hbe⟩ := mem_keywordHits data _ 4 b hb
    obtain ⟨hlen, hprops, -⟩ := wordsAfterKeyword_spec data i 4
    exact ⟨i, hi, hkw, hne, hlen, hprops, hbe⟩
  · intro b hb
    obtain ⟨i, hi, hkw, hne, -, hbe⟩ := mem_keywordHits data _ 2 b hb
    obtain ⟨hlen, hprops, -⟩ := wordsAfterKeyword_spec data i 2
    exact ⟨i, hi, hkw, hne, hlen, hprops, hbe⟩
  · intro b hb
    obtain ⟨i, hi, hkw, hne, -, hbe⟩ := mem_keywordHits data _ 10 b hb
    obtain ⟨hlen, hprops, -⟩ := wordsAfterKeyword_spec data i 10
    exact ⟨i, hi, hkw, hne, hlen, hprops, hbe⟩

/-- Witness for C6 (amended): the register-number hit of the concrete
stream has a candidate of at most 2 following same-line tokens. -/
theorem claim_c6_amended_keyword_candidate_bounds_witness :
    ∃ i, i < c6Data.text.length ∧
      (langConfigFor "eng").registerKeywords.any (fun kw =>
        strContains (strLower (strTrim (c6Data.wordAt i))) kw) = true ∧
      (wordsAfterKeyword c6Data i 2).2 ≠ [] ∧
      (wordsAfterKeyword c6Data i 2).2.length ≤ 2 ∧
      (∀ j ∈ (wordsAfterKeyword c6Data i 2).2,
        i + 1 ≤ j ∧ c6Data.lineAt j = c6Data.lineAt i ∧
          strTrim (c6Data.wordAt j) ≠ "") ∧
      ((20 : Int), (5 : Int), (15 : Int), (7 : Int)) = mergeBoxes
        ((wordsAfterKeyword c6Data i 2).2.map (fun j => c6Data.boxAt j)) :=
  (claim_c6_amended_keyword_candidate_bounds c6Data "eng").2.1
    ((20 : Int), 5, 15, 7) (by rw [show keywordHits c6Data
      (langConfigFor "eng").registerKeywords 2 =
      [((20 : Int), 5, 15, 7)] from rfl]; exact List.mem_singleton_self _)

end RedactAI
